import Mathlib

/-!
# Comprovante: the client capture component (src/components/comprovante.js)

A shallow embedding of the React component `Comprovante`.

* JavaScript values that flow through the code are `JsVal`; a number is kept as a
  decimal literal `m * 10^e` (the code never computes with it, it only tests and
  forwards it).
* The component state of one render is `Comp`.  A function of the component sees the
  state values of the render that created it (its closure), so every component
  function of the embedding takes that render as an argument `c : Comp`.
* Asynchronous code is cut at its suspension points: what runs between two suspension
  points is one `step`, and the continuations that are waiting are stored in `World`.
  The environment (browser, network, user) chooses the next `Event`.
* State setters are batched (React 18, required by the App Router that the repository
  uses); the new state becomes visible to closures at the next `Event.render`.
* A `fetch` and the read of its body are one event when the code does nothing between
  them (`getIpAddress`, and the branch of `takePhoto` that reads the error reply).
* Reads of `navigator`, `window.screen` and `document.cookie` return values, and
  `getContext`, `drawImage` and `toBlob` do not throw.
* The effect that assigns `srcObject` (lines 280-292) is not modelled: the readiness
  events of the video element are choices of the environment.
-/

namespace Comprovante

/-! ## JavaScript values -/

/-- A JavaScript value as far as the component inspects it. -/
inductive JsVal where
  | undefined
  | null
  | bool (b : Bool)
  | num (m : Int) (e : Int)
  | str (s : String)
  | object
deriving DecidableEq, Repr

/-- Truthiness, as used by `||` and by `cond ? a : b`. -/
def JsVal.truthy : JsVal → Bool
  | .undefined => false
  | .null => false
  | .bool b => b
  | .num m _ => m != 0
  | .str s => s != ""
  | .object => true

/-- The test made by `??` and `?.`: the value is `null` or `undefined`. -/
def JsVal.nullish : JsVal → Bool
  | .undefined => true
  | .null => true
  | _ => false

/-- The operator `a ?? b`. -/
def JsVal.coalesce (a b : JsVal) : JsVal := if a.nullish then b else a

/-- The operator `a || b`. -/
def JsVal.orElse (a b : JsVal) : JsVal := if a.truthy then a else b

/-- The value of `position.coords`. -/
inductive Coords where
  | undefined
  | null
  | obj (latitude longitude : JsVal)
deriving DecidableEq, Repr

/-- The argument `position` of `sendLocationData`. -/
inductive Position where
  | undefined
  | null
  | obj (coords : Coords)
deriving DecidableEq, Repr

/-- The expression `position?.coords`. -/
def Position.optCoords : Position → Coords
  | .undefined => .undefined
  | .null => .undefined
  | .obj c => c

/-- The expression `position?.coords?.latitude`. -/
def Position.optLatitude (p : Position) : JsVal :=
  match p.optCoords with
  | .undefined => .undefined
  | .null => .undefined
  | .obj lat _ => lat

/-- The expression `position?.coords?.longitude`. -/
def Position.optLongitude (p : Position) : JsVal :=
  match p.optCoords with
  | .undefined => .undefined
  | .null => .undefined
  | .obj _ lon => lon

/-! ## The IP lookup -/

/-- A decoded JSON document, as returned by `response.json()`. -/
inductive Json where
  | null
  | bool (b : Bool)
  | num (m : Int) (e : Int)
  | str (s : String)
  | arr
  | obj (fields : List (String × JsVal))
deriving DecidableEq, Repr

/-- What `fetch` to the IP service can produce: a rejection, or a response with its
`ok` flag, its status and its body (`none` when the body is not decodable JSON). -/
inductive IpReply where
  | networkError
  | response (ok : Bool) (status : Nat) (body : Option Json)
deriving DecidableEq, Repr

/-- The property read `data.ip`: a TypeError on `null`, `undefined` on a primitive,
an array or an object without the member. -/
def Json.member (key : String) : Json → Except Unit JsVal
  | .null => .error ()
  | .obj fields =>
    match fields.lookup key with
    | some v => .ok v
    | none => .ok .undefined
  | _ => .ok .undefined

/-- The `try` block of `getIpAddress`. -/
def getIpAddressTry : IpReply → Except Unit JsVal
  | .networkError => .error ()
  | .response ok _ body =>
    if !ok then .ok (.str "IP não disponível (API)")
    else
      match body with
      | none => .error ()
      | some data => data.member "ip"

/-- The function `getIpAddress`: the `try` block with its `catch`. -/
def getIpAddress (r : IpReply) : Except Unit JsVal :=
  match getIpAddressTry r with
  | .ok v => .ok v
  | .error _ => .ok (.str "IP não disponível (Erro Rede)")

/-! ## The snapshot -/

/-- The browser objects that `sendLocationData`, `startWebcam` and the mount effect read. -/
structure Browser where
  /-- Whether `navigator.geolocation` is truthy. -/
  geolocation : Bool
  /-- Whether `navigator.mediaDevices.getUserMedia` is a function. -/
  mediaDevices : Bool
  userAgent : JsVal
  language : JsVal
  /-- The members `width` and `height` of `window.screen`, when `window.screen` exists. -/
  screen : Option (JsVal × JsVal)
  /-- The string `document.cookie`. -/
  cookie : String
  /-- The members `type` and `downlink` of `navigator.connection`, when it exists. -/
  connection : Option (JsVal × JsVal)
deriving DecidableEq, Repr

/-- The member `connection` of the snapshot. -/
inductive ConnInfo where
  | obj (type downlink : JsVal)
  | str (s : String)
deriving DecidableEq, Repr

/-- The object `dataToSend`. -/
structure Snapshot where
  latitude : JsVal
  longitude : JsVal
  ip : JsVal
  userAgent : JsVal
  screenWidth : JsVal
  screenHeight : JsVal
  language : JsVal
  cookies : JsVal
  connection : ConnInfo
deriving DecidableEq, Repr

/-- Lines 49-64 of `sendLocationData`: the snapshot built from the position, the
resolved IP and the browser. -/
def buildSnapshot (b : Browser) (position : Position) (ip : JsVal) : Snapshot where
  latitude := position.optLatitude.coalesce (.str "Lat indisponível")
  longitude := position.optLongitude.coalesce (.str "Lon indisponível")
  ip := ip
  userAgent := b.userAgent.orElse (.str "N/A")
  screenWidth :=
    (match b.screen with
     | some (w, _) => w
     | none => JsVal.undefined).coalesce (.str "N/A")
  screenHeight :=
    (match b.screen with
     | some (_, h) => h
     | none => JsVal.undefined).coalesce (.str "N/A")
  language := b.language.orElse (.str "N/A")
  cookies := if b.cookie != "" then .str "Disponível (Leitura JS)" else .str "Indisponível/HttpOnly"
  connection :=
    match b.connection with
    | some (t, d) => .obj (t.orElse (.str "N/A")) (d.orElse (.str "N/A"))
    | none => .str "API Conexão Indisponível"

/-- The member names of the document that `JSON.stringify(dataToSend)` writes: a member
whose value is `undefined` is left out. -/
def Snapshot.jsonKeys (s : Snapshot) : List String :=
  ([("latitude", s.latitude), ("longitude", s.longitude), ("ip", s.ip),
    ("userAgent", s.userAgent), ("screenWidth", s.screenWidth),
    ("screenHeight", s.screenHeight), ("language", s.language),
    ("cookies", s.cookies)].filter (fun kv => kv.2 != JsVal.undefined)).map Prod.fst
    ++ ["connection"]

/-! ## Component state and the world around it -/

/-- The seven `useState` values of one render of the component.  A stream is named by
the ordinal of the `getUserMedia` grant that produced it. -/
structure Comp where
  webcamActive : Bool
  stream : Option Nat
  sendingLocation : Bool
  sendingPhoto : Bool
  photoTaken : Bool
  locationSentOrAttempted : Bool
  isVideoReady : Bool
deriving DecidableEq, Repr

/-- The initial values given to `useState` (lines 9-15): the first render. -/
def Comp.init : Comp where
  webcamActive := false
  stream := none
  sendingLocation := true
  sendingPhoto := false
  photoTaken := false
  locationSentOrAttempted := false
  isVideoReady := false

/-- What an upload `fetch` can produce: `response.ok`, a response that is not ok, or a
rejection. -/
inductive Reply where
  | ok
  | notOk (status : Nat)
  | networkError
deriving DecidableEq, Repr

/-- The calls the component makes to the outside, in the order it makes them. -/
inductive Action where
  | getCurrentPosition
  | fetchIp
  | postData (s : Snapshot)
  | armCameraTimer
  | alert
  | getUserMedia
  | armPhotoTimer
  | drawImage
  | postPhoto (size : Nat)
  | trackStop (stream : Nat)
  | unhandledRejection
deriving DecidableEq, Repr

/-- The component together with everything that is pending around it. -/
structure World where
  browser : Browser
  /-- False once the component has been unmounted. -/
  mounted : Bool
  /-- The state after every setter call made so far. -/
  st : Comp
  /-- The state values of the last committed render: the closure of the handlers bound
  on the elements, and what decides which elements (and so which refs) exist. -/
  rendered : Comp
  /-- The pending `setTimeout(startWebcam, 1500)` of the camera effect, with the render
  whose `startWebcam` it holds. -/
  timer : Option Comp
  /-- Runs of `sendLocationData` waiting for `getIpAddress`, with their `position`. -/
  ipLookups : List Position
  /-- Runs of `sendLocationData` waiting for the `fetch` to `/api/send-data`. -/
  dataPosts : Nat
  /-- Runs of `startWebcam` waiting for `getUserMedia`. -/
  cameraReqs : Nat
  /-- Pending `setTimeout(takePhoto, 250)`, each with the render whose `takePhoto` it holds. -/
  photoTimers : List Comp
  /-- Pending `canvas.toBlob` callbacks, each with the render of its `takePhoto`. -/
  blobs : List Comp
  /-- Runs of the `toBlob` callback waiting for the `fetch` to `/api/send-photo`. -/
  photoPosts : List Comp
  /-- The number of streams `getUserMedia` has granted. -/
  acquired : Nat
  log : List Action
deriving DecidableEq, Repr

/-- Whether the `video` and `canvas` elements are in the document, that is whether
`videoRef.current` and `canvasRef.current` are non-null (line 377). -/
def videoMounted (w : World) : Bool :=
  w.mounted && w.rendered.webcamActive && !w.rendered.photoTaken

/-- The function `sendLocationData` up to its first `await` (lines 40-48). -/
def sendLocationData (c : Comp) (position : Position) (w : World) : World :=
  if c.locationSentOrAttempted then w
  else
    { w with
      st := { w.st with sendingLocation := true }
      log := w.log ++ [Action.fetchIp]
      ipLookups := w.ipLookups ++ [position] }

/-- The function `handleLocationError` (lines 88-94). -/
def handleLocationError (c : Comp) (w : World) : World :=
  if !c.locationSentOrAttempted then sendLocationData c (.obj .null) w else w

/-- The rest of `sendLocationData` up to the `await fetch` (lines 48-72), once
`getIpAddress` has settled. -/
def sendLocationDataAfterIp (position : Position) (r : IpReply) (w : World) : World :=
  match getIpAddress r with
  | .error _ => { w with log := w.log ++ [Action.unhandledRejection] }
  | .ok ip =>
    { w with
      log := w.log ++ [Action.postData (buildSnapshot w.browser position ip)]
      dataPosts := w.dataPosts + 1 }

/-- The rest of `sendLocationData` (lines 73-84): each of the three outcomes only
logs, and the `finally` block sets the two flags. -/
def sendLocationDataAfterPost (r : Reply) (w : World) : World :=
  match r with
  | .ok | .notOk _ | .networkError =>
    { w with st := { w.st with sendingLocation := false, locationSentOrAttempted := true } }

/-- The function `startWebcam` up to its `await` (lines 99-118). -/
def startWebcam (c : Comp) (w : World) : World :=
  if !w.browser.mediaDevices then
    { w with
      log := w.log ++ [Action.alert]
      st := { w.st with webcamActive := false } }
  else if c.webcamActive || c.photoTaken || c.sendingLocation then w
  else
    { w with
      st := { w.st with isVideoReady := false }
      log := w.log ++ [Action.getUserMedia]
      cameraReqs := w.cameraReqs + 1 }

/-- The rest of `startWebcam` (lines 119-134), once `getUserMedia` has settled. -/
def startWebcamAfter (granted : Bool) (w : World) : World :=
  if granted then
    { w with
      st := { w.st with stream := some w.acquired, webcamActive := true }
      acquired := w.acquired + 1 }
  else
    { w with
      log := w.log ++ [Action.alert]
      st := { w.st with webcamActive := false, stream := none } }

/-- The function `stopWebcam` (lines 138-147). -/
def stopWebcam (c : Comp) (w : World) : World :=
  { w with
    log :=
      match c.stream with
      | some s => w.log ++ [Action.trackStop s]
      | none => w.log
    st := { w.st with stream := none, webcamActive := false, isVideoReady := false } }

/-- The function `handleVideoReady` (lines 150-160); `readyState` is that of the video
element when the event is delivered. -/
def handleVideoReady (c : Comp) (readyState : Nat) (w : World) : World :=
  if c.webcamActive && videoMounted w && decide (readyState ≥ 3)
      && !c.sendingPhoto && !c.photoTaken && !c.isVideoReady then
    { w with
      st := { w.st with isVideoReady := true }
      log := w.log ++ [Action.armPhotoTimer]
      photoTimers := w.photoTimers ++ [c] }
  else w

/-- The function `takePhoto` up to `canvas.toBlob` (lines 163-184 and 223-227); the
three numbers are read from the video element when the function runs. -/
def takePhoto (c : Comp) (videoWidth videoHeight readyState : Nat) (w : World) : World :=
  if !c.webcamActive || c.sendingPhoto || c.photoTaken || !videoMounted w || !videoMounted w then w
  else
    let w1 := { w with st := { w.st with sendingPhoto := true } }
    if videoWidth > 0 ∧ videoHeight > 0 ∧ readyState ≥ 3 then
      { w1 with
        log := w1.log ++ [Action.drawImage]
        blobs := w1.blobs ++ [c] }
    else
      let w2 := { w1 with st := { w1.st with sendingPhoto := false } }
      if c.webcamActive then stopWebcam c w2 else w2

/-- The callback given to `canvas.toBlob` up to its `await fetch` (lines 184-199 and
217-221); `blob` is the size of the blob, `none` for a null blob. -/
def takePhotoBlob (c : Comp) (blob : Option Nat) (w : World) : World :=
  match blob with
  | some size =>
    if size > 0 then
      { w with
        log := w.log ++ [Action.postPhoto size]
        photoPosts := w.photoPosts ++ [c] }
    else stopWebcam c { w with st := { w.st with sendingPhoto := false } }
  | none => stopWebcam c { w with st := { w.st with sendingPhoto := false } }

/-- The rest of the `toBlob` callback (lines 201-216). -/
def takePhotoAfterPost (c : Comp) (r : Reply) (w : World) : World :=
  let w1 :=
    match r with
    | .ok => stopWebcam c { w with st := { w.st with photoTaken := true } }
    | .notOk _ => stopWebcam c w
    | .networkError => stopWebcam c w
  { w1 with st := { w1.st with sendingPhoto := false } }

/-- The condition under which the camera effect arms its timer (line 262). -/
def scheduleCond (c : Comp) : Bool :=
  c.locationSentOrAttempted && !c.webcamActive && !c.photoTaken && !c.sendingLocation

/-- The dependency array of the camera effect (line 277). -/
def cameraDeps (c : Comp) : Bool × Bool × Bool × Bool :=
  (c.locationSentOrAttempted, c.webcamActive, c.photoTaken, c.sendingLocation)

/-- The body of the camera effect (lines 259-266), run for the render `c`. -/
def cameraEffect (c : Comp) (w : World) : World :=
  if scheduleCond c then
    { w with timer := some c, log := w.log ++ [Action.armCameraTimer] }
  else w

/-- The body of the mount effect (lines 235-246), run with the functions of the first
render. -/
def mountEffect (w : World) : World :=
  if w.browser.geolocation then { w with log := w.log ++ [Action.getCurrentPosition] }
  else sendLocationData Comp.init (.obj .null) w

/-- The world right after the component has mounted in browser `b`: first render
committed, mount effect and camera effect run once. -/
def mount (b : Browser) : World :=
  cameraEffect Comp.init (mountEffect
    { browser := b, mounted := true, st := Comp.init, rendered := Comp.init, timer := none,
      ipLookups := [], dataPosts := 0, cameraReqs := 0, photoTimers := [], blobs := [],
      photoPosts := [], acquired := 0, log := [] })

/-- A re-render and commit: the new state becomes the rendered one, and the camera
effect is cleaned up (lines 269-274) and run again when one of its dependencies changed. -/
def render (w : World) : World :=
  if !w.mounted then w
  else if cameraDeps w.rendered = cameraDeps w.st then { w with rendered := w.st }
  else cameraEffect w.st { w with rendered := w.st, timer := none }

/-- Unmounting: the cleanup of the camera effect, then the cleanup of the mount effect
(lines 249-252), which holds the `stopWebcam` of the first render. -/
def unmount (w : World) : World :=
  if !w.mounted then w
  else { stopWebcam Comp.init { w with timer := none } with mounted := false }

/-- What the environment can do next. -/
inductive Event where
  /-- The geolocation success callback, `sendLocationData` of the first render. -/
  | geoSuccess (position : Position)
  /-- The geolocation error callback, `handleLocationError` of the first render. -/
  | geoError (code : Nat)
  | render
  /-- The IP lookup of the `i`-th waiting run settles. -/
  | ipReply (i : Nat) (r : IpReply)
  /-- A `fetch` to `/api/send-data` settles. -/
  | dataReply (r : Reply)
  /-- The 1.5 s timer fires. -/
  | cameraTimer
  /-- A `getUserMedia` call settles. -/
  | cameraReply (granted : Bool)
  /-- The video element fires `loadeddata` or `canplay`. -/
  | videoReady (readyState : Nat)
  /-- The `i`-th pending 250 ms timer fires. -/
  | photoTimer (i : Nat) (videoWidth videoHeight readyState : Nat)
  /-- The `i`-th pending `toBlob` callback is called. -/
  | blobReady (i : Nat) (blob : Option Nat)
  /-- The `i`-th pending `fetch` to `/api/send-photo` settles. -/
  | photoReply (i : Nat) (r : Reply)
  | unmount
deriving DecidableEq, Repr

/-- One reaction of the component. An event that has nothing to act on changes nothing. -/
def step (w : World) : Event → World
  | .geoSuccess position =>
    if w.browser.geolocation then sendLocationData Comp.init position w else w
  | .geoError _ =>
    if w.browser.geolocation then handleLocationError Comp.init w else w
  | .render => render w
  | .ipReply i r =>
    match w.ipLookups[i]? with
    | some position =>
      sendLocationDataAfterIp position r { w with ipLookups := w.ipLookups.eraseIdx i }
    | none => w
  | .dataReply r =>
    if w.dataPosts = 0 then w
    else sendLocationDataAfterPost r { w with dataPosts := w.dataPosts - 1 }
  | .cameraTimer =>
    match w.timer with
    | some c => startWebcam c { w with timer := none }
    | none => w
  | .cameraReply granted =>
    if w.cameraReqs = 0 then w
    else startWebcamAfter granted { w with cameraReqs := w.cameraReqs - 1 }
  | .videoReady readyState =>
    if videoMounted w then handleVideoReady w.rendered readyState w else w
  | .photoTimer i videoWidth videoHeight readyState =>
    match w.photoTimers[i]? with
    | some c =>
      takePhoto c videoWidth videoHeight readyState
        { w with photoTimers := w.photoTimers.eraseIdx i }
    | none => w
  | .blobReady i blob =>
    match w.blobs[i]? with
    | some c => takePhotoBlob c blob { w with blobs := w.blobs.eraseIdx i }
    | none => w
  | .photoReply i r =>
    match w.photoPosts[i]? with
    | some c => takePhotoAfterPost c r { w with photoPosts := w.photoPosts.eraseIdx i }
    | none => w
  | .unmount => unmount w

/-- The world after a sequence of events. -/
def run (w : World) (tr : List Event) : World := tr.foldl step w

/-! ## Observations on the log -/

/-- The number of requests to `/api/send-data`. -/
def dataPostCount (log : List Action) : Nat :=
  log.countP fun a => match a with
    | .postData _ => true
    | _ => false

/-- The number of requests to `/api/send-photo`. -/
def photoPostCount (log : List Action) : Nat :=
  log.countP fun a => match a with
    | .postPhoto _ => true
    | _ => false

/-- The number of calls of `getUserMedia`. -/
def getUserMediaCount (log : List Action) : Nat := log.count Action.getUserMedia

/-- The number of frames drawn on the canvas. -/
def frameCount (log : List Action) : Nat := log.count Action.drawImage

/-- The number of times the camera effect armed its timer. -/
def armCount (log : List Action) : Nat := log.count Action.armCameraTimer

/-- The number of times the tracks of stream `s` were stopped. -/
def stopCount (s : Nat) (log : List Action) : Nat := log.count (Action.trackStop s)

/-- The granted streams whose tracks were never stopped. -/
def liveStreams (w : World) : List Nat :=
  (List.range w.acquired).filter fun s => stopCount s w.log = 0

/-! ## Classes of events and concrete sessions -/

/-- A geolocation callback. -/
def Event.isGeo : Event → Bool
  | .geoSuccess _ => true
  | .geoError _ => true
  | _ => false

/-- The number of geolocation callbacks in a sequence of events. -/
def geoCount (tr : List Event) : Nat := tr.countP Event.isGeo

/-- A `getUserMedia` call that is granted. -/
def Event.isGrant : Event → Bool
  | .cameraReply granted => granted
  | _ => false

/-- A photo upload that answers ok. -/
def Event.isPhotoOk : Event → Bool
  | .photoReply _ .ok => true
  | _ => false

/-- An event that makes a run of `takePhoto` end through one of its failure branches in
world `w`: the 250 ms timer fires, the entry guard passes and the frame has a zero
dimension or is not ready; the blob is null or empty; or the upload does not answer ok. -/
def photoFailure (w : World) : Event → Bool
  | .photoTimer i videoWidth videoHeight readyState =>
    match w.photoTimers[i]? with
    | some c =>
      c.webcamActive && !c.sendingPhoto && !c.photoTaken && videoMounted w
        && !(decide (videoWidth > 0) && decide (videoHeight > 0) && decide (readyState ≥ 3))
    | none => false
  | .blobReady i blob =>
    (w.blobs[i]?).isSome &&
      (match blob with
       | some size => size == 0
       | none => true)
  | .photoReply i r => (w.photoPosts[i]?).isSome && r != Reply.ok
  | _ => false

/-- A browser with geolocation and a camera. -/
def demoBrowser : Browser where
  geolocation := true
  mediaDevices := true
  userAgent := .str "Mozilla/5.0"
  language := .str "pt-BR"
  screen := some (.num 1920 0, .num 1080 0)
  cookie := ""
  connection := none

/-- The position of latitude -23.5 and longitude -46.6. -/
def demoPosition : Position := .obj (.obj (.num (-235) (-1)) (.num (-466) (-1)))

/-- A reply of the IP service that carries an address. -/
def demoIpReply : IpReply := .response true 200 (some (.obj [("ip", .str "203.0.113.7")]))

/-- The location stage, then the camera timer, a granted camera and the render that
shows the video element. -/
def toCameraActive : List Event :=
  [.geoSuccess demoPosition, .ipReply 0 demoIpReply, .dataReply .ok, .render,
   .cameraTimer, .cameraReply true, .render]

/-- From the active camera up to the pending photo upload. -/
def toPhotoUpload : List Event :=
  toCameraActive ++
    [.videoReady 4, .render, .photoTimer 0 640 480 4, .blobReady 0 (some 1000)]

/-- The happy path: one geolocation callback `g`, the snapshot upload, the camera, one
readiness event, one frame, a blob of `size` bytes and a photo upload that answers
ok, each followed by the render it causes. -/
def happyPath (g : Event) (r : IpReply) (d : Reply)
    (readyState videoWidth videoHeight readyState2 size : Nat) : List Event :=
  [g, .ipReply 0 r, .dataReply d, .render, .cameraTimer, .cameraReply true, .render,
   .videoReady readyState, .render, .photoTimer 0 videoWidth videoHeight readyState2,
   .blobReady 0 (some size), .photoReply 0 .ok, .render]

/-- Every closure that a pending capture holds has a stream, and state and render have
one whenever the webcam is active. -/
def StreamHeld (w : World) : Prop :=
  (w.st.webcamActive = true → w.st.stream.isSome = true)
  ∧ (w.rendered.webcamActive = true → w.rendered.stream.isSome = true)
  ∧ (∀ c ∈ w.photoTimers, c.webcamActive = true ∧ c.stream.isSome = true)
  ∧ (∀ c ∈ w.blobs, c.webcamActive = true ∧ c.stream.isSome = true)
  ∧ (∀ c ∈ w.photoPosts, c.webcamActive = true ∧ c.stream.isSome = true)

/-- Nothing is pending and the committed render agrees with the state on a stopped
webcam: no timer, no request, no callback. -/
def Quiet (w : World) : Prop :=
  w.timer = none ∧ w.ipLookups = [] ∧ w.dataPosts = 0 ∧ w.cameraReqs = 0
  ∧ w.photoTimers = [] ∧ w.blobs = [] ∧ w.photoPosts = []
  ∧ cameraDeps w.rendered = cameraDeps w.st ∧ w.st.webcamActive = false
  ∧ w.st.stream = none ∧ w.st.isVideoReady = false

/-- No camera was ever granted: nothing of the capture stage exists. -/
def NoCamera (w : World) : Prop :=
  w.st.webcamActive = false ∧ w.st.stream = none ∧ w.st.photoTaken = false
  ∧ w.rendered.webcamActive = false ∧ w.rendered.photoTaken = false
  ∧ w.photoTimers = [] ∧ w.blobs = [] ∧ w.photoPosts = []
  ∧ frameCount w.log = 0 ∧ photoPostCount w.log = 0

/-- The bookkeeping of a session whose camera is never granted and that may still
receive `g` geolocation callbacks: before the location attempt ends nothing of the
camera stage has happened; afterwards the timer is armed once and `getUserMedia` is
called at most once. -/
def CameraOnce (g : Nat) (w : World) : Prop :=
  (∀ c ∈ w.timer, scheduleCond c = true)
  ∧ w.cameraReqs ≤ getUserMediaCount w.log
  ∧ (if w.st.locationSentOrAttempted then
      w.ipLookups.length + w.dataPosts = 0 ∧ (w.browser.geolocation = true → g = 0)
      ∧ w.st.sendingLocation = false
      ∧ (if w.rendered.locationSentOrAttempted then
          w.rendered.sendingLocation = false ∧ armCount w.log = 1
          ∧ getUserMediaCount w.log + (if w.timer.isSome then 1 else 0) ≤ 1
        else
          w.rendered.sendingLocation = true ∧ w.timer = none ∧ armCount w.log = 0
          ∧ getUserMediaCount w.log = 0)
    else
      w.ipLookups.length + w.dataPosts ≤ 1
      ∧ (w.browser.geolocation = true → w.ipLookups.length + w.dataPosts + g ≤ 1)
      ∧ w.st.sendingLocation = true
      ∧ w.rendered.locationSentOrAttempted = false ∧ w.rendered.sendingLocation = true
      ∧ w.timer = none ∧ armCount w.log = 0 ∧ getUserMediaCount w.log = 0)

/-- Every request to `/api/send-photo` and every pending `toBlob` callback has its own
drawn frame before it. -/
def FramesFirst (w : World) : Prop :=
  photoPostCount w.log + w.blobs.length ≤ frameCount w.log

/-- The browser has no media-capture API and no `getUserMedia` call is pending. -/
def NoApi (w : World) : Prop := w.browser.mediaDevices = false ∧ w.cameraReqs = 0

/-- The events of the location stage: with geolocation, the callback `g`, then the IP
lookup and the upload settle; without it the mount effect has already started
`sendLocationData`, and only the IP lookup and the upload settle. -/
def locationStage (b : Browser) (g : Event) (r : IpReply) (d : Reply) : List Event :=
  if b.geolocation then [g, .ipReply 0 r, .dataReply d] else [.ipReply 0 r, .dataReply d]

/-- A session in which the camera is denied after the location stage. -/
def deniedSession : List Event :=
  [.geoSuccess demoPosition, .ipReply 0 demoIpReply, .dataReply .ok, .render,
   .cameraTimer, .cameraReply false, .render]

/-- The render in which stream 0 is active and the location stage is done. -/
def activeRender : Comp where
  webcamActive := true
  stream := some 0
  sendingLocation := false
  sendingPhoto := false
  photoTaken := false
  locationSentOrAttempted := true
  isVideoReady := false

/-- The camera is active and one readiness event has armed the 250 ms timer. -/
def readySession : List Event := toCameraActive ++ [.videoReady 4, .render]

/-- The session of `deniedSession` followed by a second geolocation callback (a timeout
error), the snapshot upload it starts, and the camera timer armed by the render after
that upload. -/
def deniedThenLateCallback : List Event :=
  deniedSession ++
    [.geoError 3, .render, .ipReply 0 demoIpReply, .dataReply .ok, .render, .cameraTimer]

/-- The session of `deniedThenLateCallback` when the second `getUserMedia` call is
granted, up to the photo upload. -/
def deniedThenGranted : List Event :=
  deniedThenLateCallback ++
    [.cameraReply true, .render, .videoReady 4, .render, .photoTimer 0 640 480 4,
     .blobReady 0 (some 1000)]

/-- A happy path in which `loadeddata` and `canplay` both arrive before the re-render;
every upload answers ok. -/
def happyPathTwoReady : List Event :=
  toCameraActive ++
    [.videoReady 4, .videoReady 4, .render, .photoTimer 0 640 480 4, .photoTimer 0 640 480 4,
     .blobReady 0 (some 1000), .blobReady 0 (some 1000), .photoReply 0 .ok, .photoReply 0 .ok,
     .render]

/-- The happy path with one readiness event, followed by a second geolocation callback
and its IP lookup. -/
def happyPathLateCallback : List Event :=
  happyPath (.geoSuccess demoPosition) demoIpReply .ok 4 640 480 4 1000
    ++ [.geoError 3, .ipReply 0 demoIpReply]

/-! ## The two API routes -/

/-- A JSON value that is a member of a member of a document: only its truthiness and
its conversion to text are observed. A number is kept as the text JavaScript prints
for it, an array as the text `join` gives (`none` when an element cannot be
converted), an object by whether it has an own member `toString`. -/
inductive JLeaf where
  | null
  | bool (b : Bool)
  | num (text : String)
  | str (s : String)
  | arr (joined : Option String)
  | obj (ownToString : Bool)
deriving DecidableEq, Repr

/-- A JSON value that is a member of a document. -/
inductive JValue where
  | null
  | bool (b : Bool)
  | num (text : String)
  | str (s : String)
  | arr (joined : Option String)
  | obj (fields : List (String × JLeaf))
deriving DecidableEq, Repr

/-- A JSON document. -/
inductive JDoc where
  | null
  | bool (b : Bool)
  | num (text : String)
  | str (s : String)
  | arr
  | obj (fields : List (String × JValue))
deriving DecidableEq, Repr

/-- Truthiness of a leaf (`0` is the only number that is falsy in a JSON document). -/
def JLeaf.truthy : JLeaf → Bool
  | .null => false
  | .bool b => b
  | .num text => text != "0"
  | .str s => s != ""
  | .arr _ => true
  | .obj _ => true

/-- Truthiness of a member. -/
def JValue.truthy : JValue → Bool
  | .null => false
  | .bool b => b
  | .num text => text != "0"
  | .str s => s != ""
  | .arr _ => true
  | .obj _ => true

/-- Truthiness of a document. -/
def JDoc.truthy : JDoc → Bool
  | .null => false
  | .bool b => b
  | .num text => text != "0"
  | .str s => s != ""
  | .arr => true
  | .obj _ => true

/-- The result of `typeof doc === 'object'`. -/
def JDoc.typeofObject : JDoc → Bool
  | .null => true
  | .arr => true
  | .obj _ => true
  | _ => false

/-- The conversion made by a template literal: a TypeError for an object
with an own member `toString` (no JSON value is callable), and for an array that holds one. -/
def JLeaf.text : JLeaf → Except Unit String
  | .null => .ok "null"
  | .bool b => .ok (if b then "true" else "false")
  | .num text => .ok text
  | .str s => .ok s
  | .arr (some joined) => .ok joined
  | .arr none => .error ()
  | .obj ownToString => if ownToString then .error () else .ok "[object Object]"

/-- The same conversion for a member of the document. -/
def JValue.text : JValue → Except Unit String
  | .null => .ok "null"
  | .bool b => .ok (if b then "true" else "false")
  | .num text => .ok text
  | .str s => .ok s
  | .arr (some joined) => .ok joined
  | .arr none => .error ()
  | .obj fields =>
    if (fields.lookup "toString").isSome then .error () else .ok "[object Object]"

/-- The property read `body[key]` made by the destructuring: `none` is `undefined`. -/
def JDoc.get (key : String) : JDoc → Option JValue
  | .obj fields => fields.lookup key
  | _ => none

/-- The property read `connection[key]`, where `connection` is the member of the body
or, when that is undefined, the default `{}`: a TypeError on `null`. -/
def connectionMember (connection : Option JValue) (key : String) : Except Unit (Option JLeaf) :=
  match connection with
  | none => .ok none
  | some .null => .error ()
  | some (.obj fields) => .ok (fields.lookup key)
  | some _ => .ok none

/-- The pattern `name = 'N/A'` of the destructuring followed by the interpolation of `name`. -/
def textOrDefault (v : Option JValue) : Except Unit String :=
  match v with
  | none => .ok "N/A"
  | some v => v.text

/-- The expression `member || 'N/A'` followed by its interpolation. -/
def leafOrDefault (l : Option JLeaf) : Except Unit String :=
  match l with
  | none => .ok "N/A"
  | some l => if l.truthy then l.text else .ok "N/A"

/-- The template of lines 48-57. -/
def formatMessage (latitude longitude ip userAgent screenWidth screenHeight language cookies
    connectionType connectionDownlink : String) : String :=
  "\n  Dados do usuário:\n  - Localização: " ++ latitude ++ ", " ++ longitude
    ++ "\n  - IP: " ++ ip
    ++ "\n  - Navegador/SO: " ++ userAgent
    ++ "\n  - Resolução: " ++ screenWidth ++ "x" ++ screenHeight
    ++ "\n  - Idioma: " ++ language
    ++ "\n  - Cookies: " ++ cookies
    ++ "\n  - Conexão: " ++ connectionType ++ ", Downlink: " ++ connectionDownlink ++ " Mbps\n  "

/-- The two variables read from `process.env`; `none` when a variable is unset. -/
structure ServerEnv where
  token : Option String
  chatId : Option String
deriving DecidableEq, Repr

/-- Truthiness of an environment variable. -/
def envSet : Option String → Bool
  | none => false
  | some s => s != ""

/-- The text of an environment variable inside a template or a request. -/
def envText : Option String → String
  | none => "undefined"
  | some s => s

/-- What a handler does to the outside, in order. -/
inductive ServerCall where
  | readHeaders
  | readJson
  | readFormData
  | sendMessage (chatId text : String)
  | sendPhoto (chatId : String) (size : Nat) (filename contentType : String)
deriving DecidableEq, Repr

/-- The status and the member `success` of a `NextResponse.json`. -/
structure HttpResponse where
  status : Nat
  success : Bool
deriving DecidableEq, Repr

/-- A run of a handler: its calls and its response, `none` when the handler raised. -/
structure Handled where
  calls : List ServerCall
  response : Option HttpResponse
deriving DecidableEq, Repr

/-- Lines 39-57 of the data route: destructuring, the two reads of `connection` and the
template. -/
def buildMessage (body : JDoc) : Except Unit String := do
  let connectionType ← connectionMember (body.get "connection") "type"
  let connectionDownlink ← connectionMember (body.get "connection") "downlink"
  let latitude ← textOrDefault (body.get "latitude")
  let longitude ← textOrDefault (body.get "longitude")
  let ip ← textOrDefault (body.get "ip")
  let userAgent ← textOrDefault (body.get "userAgent")
  let screenWidth ← textOrDefault (body.get "screenWidth")
  let screenHeight ← textOrDefault (body.get "screenHeight")
  let language ← textOrDefault (body.get "language")
  let cookies ← textOrDefault (body.get "cookies")
  let typeText ← leafOrDefault connectionType
  let downlinkText ← leafOrDefault connectionDownlink
  pure (formatMessage latitude longitude ip userAgent screenWidth screenHeight language cookies
    typeText downlinkText)

/-- The handler `POST` of `src/app/api/send-data/route.js`. `request` is what
`request.json()` gives (`none` when it rejects) and `relayOk` whether the call of the
messaging API resolves. -/
def sendDataPOST (env : ServerEnv) (request : Option JDoc) (relayOk : Bool) : Handled :=
  if !envSet env.token || !envSet env.chatId then
    { calls := [], response := some { status := 500, success := false } }
  else
    match request with
    | none => { calls := [.readJson], response := some { status := 400, success := false } }
    | some body =>
      if !body.truthy || !body.typeofObject then
        { calls := [.readJson], response := some { status := 400, success := false } }
      else
        match buildMessage body with
        | .error _ => { calls := [.readJson], response := none }
        | .ok message =>
          { calls := [.readJson, .sendMessage (envText env.chatId) message]
            response :=
              if relayOk then some { status := 200, success := true }
              else some { status := 500, success := false } }

/-- A value that is thrown: whether it is a `TypeError`, and its message. -/
structure JsError where
  isTypeError : Bool
  message : String
deriving DecidableEq, Repr

/-- What `clientFormData.get('photo')` gives: `null`, a string, or a file. -/
inductive FormField where
  | missing
  | text (s : String)
  | file (size : Nat) (name type : String)
deriving DecidableEq, Repr

/-- What `request.formData()` gives: a rejection, or the form with its field `photo`. -/
inductive FormRequest where
  | rejects (e : JsError)
  | parsed (photo : FormField)
deriving DecidableEq, Repr

/-- What `axios.post` gives: a rejection (transport failure or a status outside 2xx), or
a response with its decoded `data`. -/
inductive Downstream where
  | rejects
  | replies (data : JDoc)
deriving DecidableEq, Repr

/-- Whether the characters `text` begin with the characters `part`. -/
def beginsWith : List Char → List Char → Bool
  | _, [] => true
  | [], _ :: _ => false
  | a :: text, b :: part => a == b && beginsWith text part

/-- Whether the characters `part` occur in the characters `text`. -/
def occursIn (part : List Char) : List Char → Bool
  | [] => part.isEmpty
  | a :: text => beginsWith (a :: text) part || occursIn part text

/-- The method `message.includes(part)`. -/
def includesText (message part : String) : Bool := occursIn part.toList message.toList

/-- The test of line 67 in the `catch` block. -/
def isFormDataError (e : JsError) : Bool :=
  e.isTypeError && includesText e.message "Could not parse content as FormData"

/-- The `catch` block of the photo route (lines 61-79) for the thrown value `e`. -/
def sendPhotoCatch (e : JsError) : HttpResponse :=
  if isFormDataError e then { status := 400, success := false }
  else { status := 500, success := false }

/-- The read `response.data.ok` and its test (line 53): a TypeError on `null`. -/
def replyOk : JDoc → Except JsError Bool
  | .null =>
    .error { isTypeError := true, message := "Cannot read properties of null (reading 'ok')" }
  | .obj fields =>
    match fields.lookup "ok" with
    | some v => .ok v.truthy
    | none => .ok false
  | _ => .ok false

/-- The handler `POST` of `src/app/api/send-photo/route.js`. -/
def sendPhotoPOST (env : ServerEnv) (request : FormRequest) (downstream : Downstream) : Handled :=
  if !envSet env.token || !envSet env.chatId then
    { calls := [.readHeaders], response := some { status := 500, success := false } }
  else
    match request with
    | .rejects e => { calls := [.readHeaders, .readFormData], response := some (sendPhotoCatch e) }
    | .parsed .missing =>
      { calls := [.readHeaders, .readFormData], response := some { status := 400, success := false } }
    | .parsed (.text _) =>
      { calls := [.readHeaders, .readFormData], response := some { status := 400, success := false } }
    | .parsed (.file size name type) =>
      if size = 0 then
        { calls := [.readHeaders, .readFormData],
          response := some { status := 400, success := false } }
      else
        { calls := [.readHeaders, .readFormData,
            .sendPhoto (envText env.chatId) size
              (if name != "" then name else "webcam_auto.jpg")
              (if type != "" then type else "image/jpeg")]
          response :=
            match downstream with
            | .rejects =>
              some (sendPhotoCatch { isTypeError := false, message := "Request failed" })
            | .replies data =>
              match replyOk data with
              | .error e => some (sendPhotoCatch e)
              | .ok true => some { status := 200, success := true }
              | .ok false => some { status := 500, success := false } }

/-- A configured server. -/
def demoEnv : ServerEnv where
  token := some "123456:token"
  chatId := some "42"

/-! ## Observations for the order of the stages -/

/-- The number of times `handleVideoReady` scheduled `takePhoto`. -/
def photoTimerCount (log : List Action) : Nat := log.count Action.armPhotoTimer

/-- The number of calls of `stopWebcam` that stopped the tracks of a stream. -/
def stopTotal (log : List Action) : Nat :=
  log.countP fun a => match a with
    | .trackStop _ => true
    | _ => false

/-- An event that continues a run of `takePhoto`: its timer, its `toBlob` callback or
the reply to its upload. -/
def Event.isCapture : Event → Bool
  | .photoTimer _ _ _ _ => true
  | .blobReady _ _ => true
  | .photoReply _ _ => true
  | _ => false

/-- The location stage comes first: a pending camera timer belongs to a render that
satisfies the scheduling condition, and nothing of the camera stage exists before the
latch is set, which in turn needs a request to `/api/send-data`. -/
def LocationFirst (w : World) : Prop :=
  (∀ c ∈ w.timer, scheduleCond c = true)
  ∧ (w.timer.isSome = true → 0 < armCount w.log ∧ w.st.locationSentOrAttempted = true)
  ∧ (w.st.locationSentOrAttempted = true → 0 < dataPostCount w.log)
  ∧ (0 < w.dataPosts → 0 < dataPostCount w.log)
  ∧ (0 < w.cameraReqs → 0 < getUserMediaCount w.log)
  ∧ (0 < getUserMediaCount w.log → 0 < armCount w.log ∧ w.st.locationSentOrAttempted = true)
  ∧ (0 < w.acquired → 0 < getUserMediaCount w.log)

/-- The capture stage comes after the camera: an active webcam needs a granted stream,
and pending captures, frames and stopped tracks need a scheduled `takePhoto` and a
granted stream. -/
def CameraFirst (w : World) : Prop :=
  (w.st.webcamActive = true → 0 < w.acquired)
  ∧ (w.rendered.webcamActive = true → 0 < w.acquired)
  ∧ (0 < w.photoTimers.length + w.blobs.length + w.photoPosts.length
        + frameCount w.log + stopTotal w.log →
      0 < photoTimerCount w.log ∧ 0 < w.acquired)

/-- A member of the body is shown in the message: as the text of its value when it is
supplied, as `N/A` when it is missing. -/
def FieldShown (fields : List (String × JValue)) (key text : String) : Prop :=
  (fields.lookup key = none ∧ text = "N/A")
  ∨ (∃ v, fields.lookup key = some v ∧ v.text = .ok text)

/-- A member of `connection` is shown in the message: as the text of its value when
`connection` is an object that supplies a truthy value, as `N/A` in every other case
(no `connection`, a `connection` that is not an object, a missing member, a falsy one). -/
def ConnectionShown (fields : List (String × JValue)) (key text : String) : Prop :=
  (∃ members l, fields.lookup "connection" = some (.obj members) ∧ members.lookup key = some l
      ∧ l.truthy = true ∧ l.text = .ok text)
  ∨ (text = "N/A" ∧ ∀ members l, fields.lookup "connection" = some (.obj members) →
      members.lookup key = some l → l.truthy = false)

/-- The members of the body that the message shows as they are. -/
def textKeys : List String :=
  ["latitude", "longitude", "ip", "userAgent", "screenWidth", "screenHeight", "language",
   "cookies"]

/-! ## Theorems -/

theorem run_nil (w : World) : run w [] = w := rfl

theorem run_cons (w : World) (e : Event) (tr : List Event) :
    run w (e :: tr) = run (step w e) tr := rfl

theorem run_append (w : World) (tr1 tr2 : List Event) :
    run w (tr1 ++ tr2) = run (run w tr1) tr2 := by
  simp [run, List.foldl_append]

/-- The function `getIpAddress` never rejects. -/
theorem getIpAddress_ok (r : IpReply) : ∃ v, getIpAddress r = .ok v := by
  unfold getIpAddress
  cases getIpAddressTry r <;> simp

/-! ### Invariants of `step` -/

theorem forall_mem_eraseIdx {P : Comp → Prop} {l : List Comp} (i : Nat)
    (h : ∀ c ∈ l, P c) : ∀ c ∈ l.eraseIdx i, P c :=
  fun c hc => h c (List.mem_of_mem_eraseIdx hc)

theorem StreamHeld_mount (b : Browser) : StreamHeld (mount b) := by
  cases hb : b.geolocation <;>
    simp [StreamHeld, mount, mountEffect, cameraEffect, scheduleCond, Comp.init, sendLocationData, hb]

theorem StreamHeld_step (w : World) (e : Event) (h : StreamHeld w) : StreamHeld (step w e) := by
  obtain ⟨h1, h2, h3, h4, h5⟩ := h
  cases e with
  | geoSuccess p =>
    simp only [step, sendLocationData, Comp.init]
    split <;> simp_all [StreamHeld]
  | geoError code =>
    simp only [step, handleLocationError, sendLocationData, Comp.init]
    split <;> simp_all [StreamHeld]
  | render =>
    simp only [step, render, cameraEffect]
    split_ifs <;> simp_all [StreamHeld]
  | ipReply i r =>
    obtain ⟨v, hv⟩ := getIpAddress_ok r
    simp only [step, sendLocationDataAfterIp, hv]
    split <;> simp_all [StreamHeld]
  | dataReply r =>
    simp only [step, sendLocationDataAfterPost]
    split_ifs <;> cases r <;> simp_all [StreamHeld]
  | cameraTimer =>
    simp only [step, startWebcam]
    split
    · split_ifs <;> simp_all [StreamHeld]
    · simp_all [StreamHeld]
  | cameraReply granted =>
    simp only [step, startWebcamAfter]
    split_ifs <;> simp_all [StreamHeld]
  | videoReady rs =>
    simp only [step, handleVideoReady]
    split_ifs <;> simp_all [StreamHeld, or_imp, forall_and]
  | photoTimer i vw vh rs =>
    have h3e := forall_mem_eraseIdx i h3
    simp only [step]
    split
    · rename_i c hc
      have := h3 c (List.getElem?_mem hc)
      simp only [takePhoto, stopWebcam]
      split_ifs <;> simp_all [StreamHeld, or_imp, forall_and]
    · simp_all [StreamHeld]
  | blobReady i blob =>
    have h4e := forall_mem_eraseIdx i h4
    simp only [step]
    split
    · rename_i c hc
      have := h4 c (List.getElem?_mem hc)
      simp only [takePhotoBlob, stopWebcam]
      split <;> [split_ifs; skip] <;> simp_all [StreamHeld, or_imp, forall_and]
    · simp_all [StreamHeld]
  | photoReply i r =>
    have h5e := forall_mem_eraseIdx i h5
    simp only [step]
    split
    · simp only [takePhotoAfterPost, stopWebcam]
      cases r <;> simp_all [StreamHeld]
    · simp_all [StreamHeld]
  | unmount =>
    simp only [step, unmount, stopWebcam]
    split_ifs <;> simp_all [StreamHeld]

theorem StreamHeld_run (tr : List Event) (w : World) (h : StreamHeld w) : StreamHeld (run w tr) := by
  induction tr generalizing w with
  | nil => exact h
  | cons e tr ih => exact ih _ (StreamHeld_step w e h)

theorem Quiet_step (w : World) (e : Event) (h : Quiet w) (he : e.isGeo = false) :
    Quiet (step w e) ∧ (step w e).log = w.log ∧ (step w e).st = w.st := by
  obtain ⟨h1, h2, h3, h4, h5, h6, h7, h8, h9, h10, h11⟩ := h
  have hr : w.rendered.webcamActive = false := by
    simp only [cameraDeps, Prod.mk.injEq] at h8
    rw [h8.2.1]; exact h9
  cases e with
  | geoSuccess p => simp [Event.isGeo] at he
  | geoError code => simp [Event.isGeo] at he
  | render =>
    simp only [step, render, cameraEffect]
    split_ifs <;> simp_all [Quiet]
  | ipReply i r => simp_all [step, Quiet]
  | dataReply r => simp_all [step, Quiet]
  | cameraTimer => simp_all [step, Quiet]
  | cameraReply granted => simp_all [step, Quiet]
  | videoReady rs => simp_all [step, Quiet, videoMounted]
  | photoTimer i vw vh rs => simp_all [step, Quiet]
  | blobReady i blob => simp_all [step, Quiet]
  | photoReply i r => simp_all [step, Quiet]
  | unmount =>
    simp only [step, unmount, stopWebcam, Comp.init]
    split_ifs <;> simp_all [Quiet, cameraDeps]
    cases hs : w.st
    simp_all


theorem Quiet_run (tr : List Event) (w : World) (h : Quiet w) (he : ∀ e ∈ tr, e.isGeo = false) :
    Quiet (run w tr) ∧ (run w tr).log = w.log ∧ (run w tr).st = w.st := by
  induction tr generalizing w with
  | nil => exact ⟨h, rfl, rfl⟩
  | cons e tr ih =>
    have hs := Quiet_step w e h (he e (List.mem_cons_self _ _))
    have := ih (step w e) hs.1 (fun x hx => he x (List.mem_cons_of_mem _ hx))
    rw [run_cons]
    exact ⟨this.1, this.2.1.trans hs.2.1, this.2.2.trans hs.2.2⟩

theorem photoTaken_step (w : World) (e : Event) (h : (step w e).st.photoTaken = true) :
    w.st.photoTaken = true ∨ e.isPhotoOk = true := by
  cases e with
  | geoSuccess p =>
    simp only [step, sendLocationData, Comp.init] at h
    split at h <;> simp_all
  | geoError code =>
    simp only [step, handleLocationError, sendLocationData, Comp.init] at h
    split at h <;> simp_all
  | render =>
    simp only [step, render, cameraEffect] at h
    split_ifs at h <;> simp_all
  | ipReply i r =>
    obtain ⟨v, hv⟩ := getIpAddress_ok r
    simp only [step, sendLocationDataAfterIp, hv] at h
    split at h <;> simp_all
  | dataReply r =>
    simp only [step, sendLocationDataAfterPost] at h
    split_ifs at h <;> cases r <;> simp_all
  | cameraTimer =>
    simp only [step, startWebcam] at h
    split at h
    · split_ifs at h <;> simp_all
    · simp_all
  | cameraReply granted =>
    simp only [step, startWebcamAfter] at h
    split_ifs at h <;> simp_all
  | videoReady rs =>
    simp only [step, handleVideoReady] at h
    split_ifs at h <;> simp_all
  | photoTimer i vw vh rs =>
    simp only [step, takePhoto, stopWebcam] at h
    split at h
    · split_ifs at h <;> simp_all
    · simp_all
  | blobReady i blob =>
    simp only [step, takePhotoBlob, stopWebcam] at h
    split at h
    · split at h <;> [split_ifs at h; skip] <;> simp_all
    · simp_all
  | photoReply i r =>
    cases r <;> simp_all [step, takePhotoAfterPost, stopWebcam, Event.isPhotoOk]
    all_goals (split at h <;> simp_all)
  | unmount =>
    simp only [step, unmount, stopWebcam] at h
    split_ifs at h <;> simp_all

theorem photoTaken_run (tr : List Event) (w : World) (h : (run w tr).st.photoTaken = true) :
    w.st.photoTaken = true ∨ ∃ e ∈ tr, e.isPhotoOk = true := by
  induction tr generalizing w with
  | nil => exact Or.inl h
  | cons e tr ih =>
    rcases ih (step w e) h with h1 | ⟨x, hx, hx2⟩
    · rcases photoTaken_step w e h1 with h2 | h2
      · exact Or.inl h2
      · exact Or.inr ⟨e, List.mem_cons_self _ _, h2⟩
    · exact Or.inr ⟨x, List.mem_cons_of_mem _ hx, hx2⟩


theorem NoCamera_mount (b : Browser) : NoCamera (mount b) := by
  cases hb : b.geolocation <;>
    simp [NoCamera, mount, mountEffect, cameraEffect, scheduleCond, Comp.init, sendLocationData, hb,
      frameCount, photoPostCount]

theorem NoCamera_step (w : World) (e : Event) (h : NoCamera w) (he : e.isGrant = false) :
    NoCamera (step w e) := by
  obtain ⟨h1, h2, h3, h4, h5, h6, h7, h8, h9, h10⟩ := h
  cases e with
  | geoSuccess p =>
    simp only [step, sendLocationData, Comp.init]
    split <;> simp_all [NoCamera, frameCount, photoPostCount]
  | geoError code =>
    simp only [step, handleLocationError, sendLocationData, Comp.init]
    split <;> simp_all [NoCamera, frameCount, photoPostCount]
  | render =>
    simp only [step, render, cameraEffect]
    split_ifs <;> simp_all [NoCamera, frameCount, photoPostCount]
  | ipReply i r =>
    obtain ⟨v, hv⟩ := getIpAddress_ok r
    simp only [step, sendLocationDataAfterIp, hv]
    split <;> simp_all [NoCamera, frameCount, photoPostCount]
  | dataReply r =>
    simp only [step, sendLocationDataAfterPost]
    split_ifs <;> cases r <;> simp_all [NoCamera, frameCount, photoPostCount]
  | cameraTimer =>
    simp only [step, startWebcam]
    split
    · split_ifs <;> simp_all [NoCamera, frameCount, photoPostCount]
    · simp_all [NoCamera, frameCount, photoPostCount]
  | cameraReply granted =>
    simp only [Event.isGrant] at he
    subst he
    simp only [step, startWebcamAfter]
    split_ifs <;> simp_all [NoCamera, frameCount, photoPostCount]
  | videoReady rs => simp_all [step, NoCamera, videoMounted, frameCount, photoPostCount]
  | photoTimer i vw vh rs => simp_all [step, NoCamera, frameCount, photoPostCount]
  | blobReady i blob => simp_all [step, NoCamera, frameCount, photoPostCount]
  | photoReply i r => simp_all [step, NoCamera, frameCount, photoPostCount]
  | unmount =>
    simp only [step, unmount, stopWebcam, Comp.init]
    split_ifs <;> simp_all [NoCamera, frameCount, photoPostCount]

theorem CameraOnce_mount (b : Browser) : CameraOnce 1 (mount b) := by
  cases hb : b.geolocation <;>
    simp [CameraOnce, mount, mountEffect, cameraEffect, scheduleCond, Comp.init, sendLocationData, hb,
      getUserMediaCount, armCount]

theorem sendLocationDataAfterPost_eq (r : Reply) (w : World) :
    sendLocationDataAfterPost r w
      = { w with st := { w.st with sendingLocation := false, locationSentOrAttempted := true } } := by
  cases r <;> rfl

theorem CameraOnce_geo (w : World) (e : Event) (g : Nat)
    (h : CameraOnce (g + 1) w) (he : e.isGeo = true) : CameraOnce g (step w e) := by
  obtain ⟨c1, c2, c3⟩ := h
  cases e <;> simp [Event.isGeo] at he
  all_goals
    simp only [step, handleLocationError, sendLocationData, Comp.init]
    unfold CameraOnce
    split_ifs at c3 ⊢ <;> simp_all [getUserMediaCount, armCount]
    omega

theorem CameraOnce_render (w : World) (g : Nat) (hn : NoCamera w)
    (h : CameraOnce g w) : CameraOnce g (step w .render) := by
  obtain ⟨n1, n2, n3, n4, n5, n6, n7, n8, n9, n10⟩ := hn
  obtain ⟨c1, c2, c3⟩ := h
  simp only [step, render, cameraEffect]
  unfold CameraOnce
  unfold scheduleCond cameraDeps
  split_ifs at c3 ⊢ <;> simp_all [getUserMediaCount, armCount, scheduleCond]

theorem CameraOnce_ipReply (w : World) (g i : Nat) (r : IpReply)
    (h : CameraOnce g w) : CameraOnce g (step w (.ipReply i r)) := by
  obtain ⟨v, hv⟩ := getIpAddress_ok r
  simp only [step, sendLocationDataAfterIp, hv]
  split
  · rename_i p hp
    obtain ⟨c1, c2, c3⟩ := h
    have hlt : i < w.ipLookups.length := (List.getElem?_eq_some_iff.1 hp).1
    have hlen : (w.ipLookups.eraseIdx i).length + 1 = w.ipLookups.length := by
      rw [List.length_eraseIdx_of_lt hlt]; omega
    generalize w.ipLookups.eraseIdx i = l at hlen ⊢
    unfold CameraOnce
    cases hgeo : w.browser.geolocation <;>
    split_ifs at c3 ⊢ <;> simp_all [getUserMediaCount, armCount]
    all_goals omega
  · exact h

theorem CameraOnce_dataReply (w : World) (g : Nat) (r : Reply) (hn : NoCamera w)
    (h : CameraOnce g w) : CameraOnce g (step w (.dataReply r)) := by
  obtain ⟨n1, n2, n3, n4, n5, n6, n7, n8, n9, n10⟩ := hn
  obtain ⟨c1, c2, c3⟩ := h
  simp only [step, sendLocationDataAfterPost_eq]
  unfold CameraOnce
  cases hgeo : w.browser.geolocation <;>
  split_ifs at c3 ⊢ <;> simp_all [getUserMediaCount, armCount]
  all_goals
    have hl : w.ipLookups = [] := List.length_eq_zero.1 (by omega)
    simp only [hl, true_and]
    omega

theorem CameraOnce_cameraTimer (w : World) (g : Nat) (hn : NoCamera w)
    (h : CameraOnce g w) : CameraOnce g (step w .cameraTimer) := by
  obtain ⟨n1, n2, n3, n4, n5, n6, n7, n8, n9, n10⟩ := hn
  obtain ⟨c1, c2, c3⟩ := h
  simp only [step, startWebcam]
  split
  · rename_i c hc
    have hcc := c1 c (by simp [hc])
    simp only [scheduleCond, Bool.and_eq_true, Bool.not_eq_true', Bool.and_eq_true] at hcc
    unfold CameraOnce
    split_ifs at c3 ⊢ <;> simp_all [getUserMediaCount, armCount]
  · exact ⟨c1, c2, c3⟩

theorem CameraOnce_cameraReply (w : World) (g : Nat)
    (h : CameraOnce g w) : CameraOnce g (step w (.cameraReply false)) := by
  obtain ⟨c1, c2, c3⟩ := h
  simp only [step, startWebcamAfter]
  unfold CameraOnce
  split_ifs at c3 ⊢ <;> simp_all [getUserMediaCount, armCount]
  omega

theorem CameraOnce_unmount (w : World) (g : Nat)
    (h : CameraOnce g w) : CameraOnce g (step w .unmount) := by
  obtain ⟨c1, c2, c3⟩ := h
  simp only [step, unmount, stopWebcam, Comp.init]
  unfold CameraOnce
  split_ifs at c3 ⊢ <;> simp_all [getUserMediaCount, armCount]

theorem CameraOnce_step (w : World) (e : Event) (g : Nat) (hn : NoCamera w)
    (h : CameraOnce (g + (if e.isGeo then 1 else 0)) w) (he : e.isGrant = false) :
    CameraOnce g (step w e) := by
  have hn0 := hn
  obtain ⟨n1, n2, n3, n4, n5, n6, n7, n8, n9, n10⟩ := hn
  cases e with
  | geoSuccess p => exact CameraOnce_geo w _ g h rfl
  | geoError code => exact CameraOnce_geo w _ g h rfl
  | render => exact CameraOnce_render w g hn0 h
  | ipReply i r => exact CameraOnce_ipReply w g i r h
  | dataReply r => exact CameraOnce_dataReply w g r hn0 h
  | cameraTimer => exact CameraOnce_cameraTimer w g hn0 h
  | cameraReply granted =>
    simp only [Event.isGrant] at he
    subst he
    exact CameraOnce_cameraReply w g h
  | videoReady rs =>
    have : step w (.videoReady rs) = w := by simp_all [step, videoMounted]
    rw [this]; exact h
  | photoTimer i vw vh rs =>
    have : step w (.photoTimer i vw vh rs) = w := by simp_all [step]
    rw [this]; exact h
  | blobReady i blob =>
    have : step w (.blobReady i blob) = w := by simp_all [step]
    rw [this]; exact h
  | photoReply i r =>
    have : step w (.photoReply i r) = w := by simp_all [step]
    rw [this]; exact h
  | unmount => exact CameraOnce_unmount w g h


theorem CameraOnce_bound (g : Nat) (w : World) (h : CameraOnce g w) :
    getUserMediaCount w.log ≤ 1 ∧ armCount w.log ≤ 1 := by
  obtain ⟨c1, c2, c3⟩ := h
  split_ifs at c3 <;> omega

theorem photoTaken_keep_step (w : World) (e : Event) (h : w.st.photoTaken = true) :
    (step w e).st.photoTaken = true := by
  cases e with
  | geoSuccess p =>
    simp only [step, sendLocationData, Comp.init]
    split <;> simp_all
  | geoError code =>
    simp only [step, handleLocationError, sendLocationData, Comp.init]
    split <;> simp_all
  | render =>
    simp only [step, render, cameraEffect]
    split_ifs <;> simp_all
  | ipReply i r =>
    obtain ⟨v, hv⟩ := getIpAddress_ok r
    simp only [step, sendLocationDataAfterIp, hv]
    split <;> simp_all
  | dataReply r =>
    simp only [step, sendLocationDataAfterPost]
    split_ifs <;> cases r <;> simp_all
  | cameraTimer =>
    simp only [step, startWebcam]
    split
    · split_ifs <;> simp_all
    · simp_all
  | cameraReply granted =>
    simp only [step, startWebcamAfter]
    split_ifs <;> simp_all
  | videoReady rs =>
    simp only [step, handleVideoReady]
    split_ifs <;> simp_all
  | photoTimer i vw vh rs =>
    simp only [step, takePhoto, stopWebcam]
    split
    · split_ifs <;> simp_all
    · simp_all
  | blobReady i blob =>
    simp only [step, takePhotoBlob, stopWebcam]
    split
    · split <;> [split_ifs; skip] <;> simp_all
    · simp_all
  | photoReply i r =>
    simp only [step, takePhotoAfterPost, stopWebcam]
    split
    · cases r <;> simp_all
    · simp_all
  | unmount =>
    simp only [step, unmount, stopWebcam]
    split_ifs <;> simp_all

theorem photoTaken_keep_run (tr : List Event) (w : World) (h : w.st.photoTaken = true) :
    (run w tr).st.photoTaken = true := by
  induction tr generalizing w with
  | nil => exact h
  | cons e tr ih => exact ih _ (photoTaken_keep_step w e h)

theorem photoFailure_step (w : World) (e : Event) (hf : photoFailure w e = true) :
    (step w e).st = { w.st with stream := none, webcamActive := false, isVideoReady := false,
                                sendingPhoto := false }
    ∧ (step w e).mounted = w.mounted ∧ (step w e).rendered = w.rendered
    ∧ (step w e).browser = w.browser
    ∧ armCount (step w e).log = armCount w.log
    ∧ getUserMediaCount (step w e).log = getUserMediaCount w.log := by
  cases e <;> simp only [photoFailure, Bool.false_eq_true] at hf
  case photoTimer i vw vh rs =>
    simp only [step]
    cases hb : w.photoTimers[i]? with
    | none => simp [hb] at hf
    | some c =>
      simp only [hb] at hf
      have hdim : ¬ (vw > 0 ∧ vh > 0 ∧ rs ≥ 3) := by
        intro ⟨a, b, c3⟩
        simp [a, b, c3] at hf
      simp only [takePhoto, stopWebcam]
      split_ifs with h1 h2
      all_goals first
        | exact absurd h2 hdim
        | (cases hcs : c.stream <;>
            simp_all [armCount, getUserMediaCount, List.count_append, videoMounted])
  case blobReady i blob =>
    simp only [step]
    cases hb : w.blobs[i]? with
    | none => simp [hb] at hf
    | some c =>
      simp only [hb, Option.isSome_some, Bool.true_and] at hf
      cases hcs : c.stream <;> cases blob <;>
        simp_all [takePhotoBlob, stopWebcam, armCount, getUserMediaCount, List.count_append]
  case photoReply i r =>
    simp only [step]
    cases hb : w.photoPosts[i]? with
    | none => simp [hb] at hf
    | some c =>
      cases hcs : c.stream <;> cases r <;>
        simp_all [takePhotoAfterPost, stopWebcam, armCount, getUserMediaCount, List.count_append]


theorem FramesFirst_mount (b : Browser) : FramesFirst (mount b) := by
  cases hb : b.geolocation <;>
    simp [FramesFirst, mount, mountEffect, cameraEffect, scheduleCond, Comp.init, sendLocationData, hb,
      frameCount, photoPostCount]

theorem FramesFirst_step (w : World) (e : Event) (h : FramesFirst w) : FramesFirst (step w e) := by
  unfold FramesFirst at h ⊢
  cases e with
  | geoSuccess p =>
    simp only [step, sendLocationData, Comp.init]
    split <;> simp_all [frameCount, photoPostCount, List.count_append]
  | geoError code =>
    simp only [step, handleLocationError, sendLocationData, Comp.init]
    split <;> simp_all [frameCount, photoPostCount, List.count_append]
  | render =>
    simp only [step, render, cameraEffect]
    split_ifs <;> simp_all [frameCount, photoPostCount, List.count_append]
  | ipReply i r =>
    obtain ⟨v, hv⟩ := getIpAddress_ok r
    simp only [step, sendLocationDataAfterIp, hv]
    split <;> simp_all [frameCount, photoPostCount, List.count_append]
  | dataReply r =>
    simp only [step, sendLocationDataAfterPost]
    split_ifs <;> cases r <;> simp_all [frameCount, photoPostCount, List.count_append]
  | cameraTimer =>
    simp only [step, startWebcam]
    split
    · split_ifs <;> simp_all [frameCount, photoPostCount, List.count_append]
    · simp_all
  | cameraReply granted =>
    simp only [step, startWebcamAfter]
    split_ifs <;> simp_all [frameCount, photoPostCount, List.count_append]
  | videoReady rs =>
    simp only [step, handleVideoReady]
    split_ifs <;> simp_all [frameCount, photoPostCount, List.count_append]
  | photoTimer i vw vh rs =>
    simp only [step, takePhoto, stopWebcam]
    split
    · rename_i c hc
      cases hcs : c.stream <;> split_ifs <;>
        simp_all [frameCount, photoPostCount, List.count_append] <;> omega
    · simp_all
  | blobReady i blob =>
    simp only [step, takePhotoBlob, stopWebcam]
    split
    · rename_i c hc
      have hlt : i < w.blobs.length := (List.getElem?_eq_some_iff.1 hc).1
      have hlen : (w.blobs.eraseIdx i).length + 1 = w.blobs.length := by
        rw [List.length_eraseIdx_of_lt hlt]; omega
      generalize w.blobs.eraseIdx i = l at hlen ⊢
      cases hcs : c.stream <;> cases blob <;>
        simp only [frameCount, photoPostCount, List.count_append, List.countP_append] at h ⊢
      all_goals first
        | (simp; omega)
        | (split_ifs <;> simp <;> omega)
    · simp_all
  | photoReply i r =>
    simp only [step, takePhotoAfterPost, stopWebcam]
    split
    · rename_i c hc
      cases hcs : c.stream <;> cases r <;>
        simp_all [frameCount, photoPostCount, List.count_append]
    · simp_all
  | unmount =>
    simp only [step, unmount, stopWebcam, Comp.init]
    split_ifs <;> simp_all [frameCount, photoPostCount, List.count_append]

theorem NoApi_step (w : World) (e : Event) (h : NoApi w) : NoApi (step w e) := by
  obtain ⟨h1, h2⟩ := h
  cases e with
  | geoSuccess p =>
    simp only [step, sendLocationData, Comp.init]
    split <;> simp_all [NoApi]
  | geoError code =>
    simp only [step, handleLocationError, sendLocationData, Comp.init]
    split <;> simp_all [NoApi]
  | render =>
    simp only [step, render, cameraEffect]
    split_ifs <;> simp_all [NoApi]
  | ipReply i r =>
    obtain ⟨v, hv⟩ := getIpAddress_ok r
    simp only [step, sendLocationDataAfterIp, hv]
    split <;> simp_all [NoApi]
  | dataReply r =>
    simp only [step, sendLocationDataAfterPost]
    split_ifs <;> cases r <;> simp_all [NoApi]
  | cameraTimer =>
    simp only [step, startWebcam]
    split
    · split_ifs <;> simp_all [NoApi]
    · simp_all [NoApi]
  | cameraReply granted => simp_all [step, NoApi]
  | videoReady rs =>
    simp only [step, handleVideoReady]
    split_ifs <;> simp_all [NoApi]
  | photoTimer i vw vh rs =>
    simp only [step, takePhoto, stopWebcam]
    split
    · split_ifs <;> simp_all [NoApi]
    · simp_all [NoApi]
  | blobReady i blob =>
    simp only [step, takePhotoBlob, stopWebcam]
    split
    · split <;> [split_ifs; skip] <;> simp_all [NoApi]
    · simp_all [NoApi]
  | photoReply i r =>
    simp only [step, takePhotoAfterPost, stopWebcam]
    split
    · cases r <;> simp_all [NoApi]
    · simp_all [NoApi]
  | unmount =>
    simp only [step, unmount, stopWebcam]
    split_ifs <;> simp_all [NoApi]

theorem CameraOnce_run_denied (tr : List Event) (w : World) (g : Nat) (hn : NoCamera w)
    (h : CameraOnce g w) (hg : geoCount tr ≤ g)
    (he : NoApi w ∨ ∀ e ∈ tr, e.isGrant = false) :
    NoCamera (run w tr) ∧ CameraOnce (g - geoCount tr) (run w tr) := by
  induction tr generalizing w g with
  | nil => exact ⟨hn, h⟩
  | cons e tr ih =>
    have hcount : geoCount (e :: tr) = geoCount tr + (if e.isGeo then 1 else 0) := by
      simp [geoCount, List.countP_cons]
    by_cases hgrant : e.isGrant = true
    · -- a grant can only arrive when no request is pending: nothing happens
      have hna : NoApi w := by
        rcases he with h1 | h2
        · exact h1
        · have := h2 e (List.mem_cons_self _ _)
          simp [this] at hgrant
      have hid : step w e = w := by
        cases e <;> simp [Event.isGrant] at hgrant
        simp [step, hna.2]
      have hgeo : e.isGeo = false := by
        cases e <;> simp [Event.isGrant] at hgrant
        rfl
      rw [run_cons, hid, hcount, hgeo]
      simp only [Bool.false_eq_true, if_false, Nat.add_zero]
      rw [hcount, hgeo] at hg
      exact ih w g hn h (by simpa using hg) (Or.inl hna)
    · have he1 : e.isGrant = false := by simpa using hgrant
      have he2 : NoApi (step w e) ∨ ∀ x ∈ tr, x.isGrant = false := by
        rcases he with h1 | h2
        · exact Or.inl (NoApi_step w e h1)
        · exact Or.inr (fun x hx => h2 x (List.mem_cons_of_mem _ hx))
      rw [hcount] at hg
      have hstep : CameraOnce (g - (if e.isGeo then 1 else 0)) (step w e) := by
        apply CameraOnce_step w e _ hn _ he1
        have : g - (if e.isGeo then 1 else 0) + (if e.isGeo then 1 else 0) = g := by
          omega
        rw [this]; exact h
      have := ih (step w e) (g - (if e.isGeo then 1 else 0)) (NoCamera_step w e hn he1) hstep
        (by omega) he2
      rw [run_cons, hcount]
      have heq : g - (geoCount tr + (if e.isGeo then 1 else 0))
          = g - (if e.isGeo then 1 else 0) - geoCount tr := by omega
      rw [heq]; exact this

theorem NoCamera_run_denied (tr : List Event) (w : World) (hn : NoCamera w)
    (he : NoApi w ∨ ∀ e ∈ tr, e.isGrant = false) : NoCamera (run w tr) := by
  induction tr generalizing w with
  | nil => exact hn
  | cons e tr ih =>
    by_cases hgrant : e.isGrant = true
    · have hna : NoApi w := by
        rcases he with h1 | h2
        · exact h1
        · have := h2 e (List.mem_cons_self _ _)
          simp [this] at hgrant
      have hid : step w e = w := by
        cases e <;> simp [Event.isGrant] at hgrant
        simp [step, hna.2]
      rw [run_cons, hid]
      exact ih w hn (Or.inl hna)
    · have he1 : e.isGrant = false := by simpa using hgrant
      have he2 : NoApi (step w e) ∨ ∀ x ∈ tr, x.isGrant = false := by
        rcases he with h1 | h2
        · exact Or.inl (NoApi_step w e h1)
        · exact Or.inr (fun x hx => h2 x (List.mem_cons_of_mem _ hx))
      rw [run_cons]
      exact ih (step w e) (NoCamera_step w e hn he1) he2

theorem NoApi_mount (b : Browser) (h : b.mediaDevices = false) : NoApi (mount b) := by
  cases hb : b.geolocation <;>
    simp [NoApi, mount, mountEffect, cameraEffect, scheduleCond, Comp.init, sendLocationData, hb, h]

theorem NoApi_run (tr : List Event) (w : World) (h : NoApi w) : NoApi (run w tr) := by
  induction tr generalizing w with
  | nil => exact h
  | cons e tr ih => exact ih _ (NoApi_step w e h)

theorem FramesFirst_run (tr : List Event) (w : World) (h : FramesFirst w) :
    FramesFirst (run w tr) := by
  induction tr generalizing w with
  | nil => exact h
  | cons e tr ih => exact ih _ (FramesFirst_step w e h)

theorem happyPath_end (b : Browser) (g : Event) (r : IpReply) (d : Reply)
    (rs vw vh rs2 n : Nat) (hmd : b.mediaDevices = true) (hg : g.isGeo = true)
    (hrs : rs ≥ 3) (hvw : vw > 0) (hvh : vh > 0) (hrs2 : rs2 ≥ 3) (hn : n > 0) :
    (run (mount b) (happyPath g r d rs vw vh rs2 n)).st =
      { webcamActive := false, stream := none, sendingLocation := false, sendingPhoto := false,
        photoTaken := true, locationSentOrAttempted := true, isVideoReady := false }
    ∧ Quiet (run (mount b) (happyPath g r d rs vw vh rs2 n))
    ∧ (run (mount b) (happyPath g r d rs vw vh rs2 n)).acquired = 1
    ∧ ∃ position ip, (run (mount b) (happyPath g r d rs vw vh rs2 n)).log =
        (if b.geolocation then [Action.getCurrentPosition] else [])
        ++ [Action.fetchIp, Action.postData (buildSnapshot b position ip), Action.armCameraTimer,
          Action.getUserMedia, Action.armPhotoTimer, Action.drawImage, Action.postPhoto n,
          Action.trackStop 0] := by
  obtain ⟨v, hv⟩ := getIpAddress_ok r
  cases hb : b.geolocation <;> cases g <;> simp [Event.isGeo] at hg <;> cases d <;>
    simp [happyPath, run, step, mount, mountEffect, cameraEffect, scheduleCond, Comp.init, hb, hmd,
      handleLocationError, sendLocationData, sendLocationDataAfterIp, sendLocationDataAfterPost, hv,
      render, cameraDeps, startWebcam, startWebcamAfter, videoMounted, handleVideoReady, takePhoto,
      takePhotoBlob, takePhotoAfterPost, stopWebcam, hrs, hvw, hvh, hrs2, hn, Quiet]

/-! ### The order of the stages -/

theorem dataPostCount_snoc (l : List Action) (a : Action) :
    dataPostCount (l ++ [a]) = dataPostCount l + dataPostCount [a] := by
  simp [dataPostCount, List.count_append, List.countP_append]

theorem photoPostCount_snoc (l : List Action) (a : Action) :
    photoPostCount (l ++ [a]) = photoPostCount l + photoPostCount [a] := by
  simp [photoPostCount, List.count_append, List.countP_append]

theorem stopTotal_snoc (l : List Action) (a : Action) :
    stopTotal (l ++ [a]) = stopTotal l + stopTotal [a] := by
  simp [stopTotal, List.count_append, List.countP_append]

theorem getUserMediaCount_snoc (l : List Action) (a : Action) :
    getUserMediaCount (l ++ [a]) = getUserMediaCount l + getUserMediaCount [a] := by
  simp [getUserMediaCount, List.count_append, List.countP_append]

theorem getUserMediaCount_one (a : Action) : getUserMediaCount [a] = if a = Action.getUserMedia then 1 else 0 := by
  simp [getUserMediaCount, List.count_singleton]

theorem frameCount_snoc (l : List Action) (a : Action) :
    frameCount (l ++ [a]) = frameCount l + frameCount [a] := by
  simp [frameCount, List.count_append, List.countP_append]

theorem frameCount_one (a : Action) : frameCount [a] = if a = Action.drawImage then 1 else 0 := by
  simp [frameCount, List.count_singleton]

theorem armCount_snoc (l : List Action) (a : Action) :
    armCount (l ++ [a]) = armCount l + armCount [a] := by
  simp [armCount, List.count_append, List.countP_append]

theorem armCount_one (a : Action) : armCount [a] = if a = Action.armCameraTimer then 1 else 0 := by
  simp [armCount, List.count_singleton]

theorem photoTimerCount_snoc (l : List Action) (a : Action) :
    photoTimerCount (l ++ [a]) = photoTimerCount l + photoTimerCount [a] := by
  simp [photoTimerCount, List.count_append, List.countP_append]

theorem photoTimerCount_one (a : Action) : photoTimerCount [a] = if a = Action.armPhotoTimer then 1 else 0 := by
  simp [photoTimerCount, List.count_singleton]

theorem dataPostCount_one (a : Action) :
    dataPostCount [a] = match a with
      | .postData _ => 1
      | _ => 0 := by
  cases a <;> rfl

theorem photoPostCount_one (a : Action) :
    photoPostCount [a] = match a with
      | .postPhoto _ => 1
      | _ => 0 := by
  cases a <;> rfl

theorem stopTotal_one (a : Action) :
    stopTotal [a] = match a with
      | .trackStop _ => 1
      | _ => 0 := by
  cases a <;> rfl

theorem stopCount_snoc (s : Nat) (l : List Action) (a : Action) :
    stopCount s (l ++ [a]) = stopCount s l + stopCount s [a] := by
  simp [stopCount, List.count_append]

theorem stopCount_one (s : Nat) (a : Action) :
    stopCount s [a] = if a = Action.trackStop s then 1 else 0 := by
  simp [stopCount, List.count_singleton]

theorem LocationFirst_mount (b : Browser) : LocationFirst (mount b) := by
  cases hb : b.geolocation <;>
    simp [LocationFirst, mount, mountEffect, cameraEffect, scheduleCond, Comp.init,
      sendLocationData, hb, getUserMediaCount, armCount, dataPostCount]

theorem LocationFirst_geoSuccess (w : World) (p : Position) (h : LocationFirst w) :
    LocationFirst (step w (.geoSuccess p)) := by
  unfold LocationFirst at h
  simp only [step, sendLocationData, Comp.init]
  split <;> simp_all [LocationFirst, getUserMediaCount_snoc, armCount_snoc, dataPostCount_snoc, getUserMediaCount_one, armCount_one, dataPostCount_one]

theorem LocationFirst_geoError (w : World) (code : Nat) (h : LocationFirst w) :
    LocationFirst (step w (.geoError code)) := by
  unfold LocationFirst at h
  simp only [step, handleLocationError, sendLocationData, Comp.init]
  split <;> simp_all [LocationFirst, getUserMediaCount_snoc, armCount_snoc, dataPostCount_snoc, getUserMediaCount_one, armCount_one, dataPostCount_one]

theorem LocationFirst_render (w : World)  (h : LocationFirst w) :
    LocationFirst (step w (.render)) := by
  unfold LocationFirst at h
  simp only [step, render, cameraEffect]
  split_ifs with h1 h2 h3 <;> simp_all [LocationFirst, getUserMediaCount_snoc, armCount_snoc, dataPostCount_snoc, getUserMediaCount_one, armCount_one, dataPostCount_one]
  simp only [scheduleCond, Bool.and_eq_true] at h3
  exact h3.1.1.1

theorem LocationFirst_ipReply (w : World) (i : Nat) (r : IpReply) (h : LocationFirst w) :
    LocationFirst (step w (.ipReply i r)) := by
  unfold LocationFirst at h
  obtain ⟨v, hv⟩ := getIpAddress_ok r
  simp only [step, sendLocationDataAfterIp, hv]
  split <;> simp_all [LocationFirst, getUserMediaCount_snoc, armCount_snoc, dataPostCount_snoc, getUserMediaCount_one, armCount_one, dataPostCount_one]

theorem LocationFirst_dataReply (w : World) (r : Reply) (h : LocationFirst w) :
    LocationFirst (step w (.dataReply r)) := by
  unfold LocationFirst at h
  simp only [step, sendLocationDataAfterPost_eq]
  split_ifs <;> simp_all [LocationFirst, getUserMediaCount_snoc, armCount_snoc, dataPostCount_snoc, getUserMediaCount_one, armCount_one, dataPostCount_one]
  omega

theorem LocationFirst_cameraTimer (w : World)  (h : LocationFirst w) :
    LocationFirst (step w (.cameraTimer)) := by
  unfold LocationFirst at h
  simp only [step, startWebcam]
  split
  · split_ifs <;> simp_all [LocationFirst, getUserMediaCount_snoc, armCount_snoc, dataPostCount_snoc, getUserMediaCount_one, armCount_one, dataPostCount_one]
  · simp_all [LocationFirst, getUserMediaCount_snoc, armCount_snoc, dataPostCount_snoc, getUserMediaCount_one, armCount_one, dataPostCount_one]

theorem LocationFirst_cameraReply (w : World) (granted : Bool) (h : LocationFirst w) :
    LocationFirst (step w (.cameraReply granted)) := by
  unfold LocationFirst at h
  simp only [step, startWebcamAfter]
  split_ifs <;> simp_all [LocationFirst, getUserMediaCount_snoc, armCount_snoc, dataPostCount_snoc, getUserMediaCount_one, armCount_one, dataPostCount_one]
  all_goals omega

theorem LocationFirst_videoReady (w : World) (rs : Nat) (h : LocationFirst w) :
    LocationFirst (step w (.videoReady rs)) := by
  unfold LocationFirst at h
  simp only [step, handleVideoReady]
  split_ifs <;> simp_all [LocationFirst, getUserMediaCount_snoc, armCount_snoc, dataPostCount_snoc, getUserMediaCount_one, armCount_one, dataPostCount_one]

theorem LocationFirst_photoTimer (w : World) (i vw vh rs : Nat) (h : LocationFirst w) :
    LocationFirst (step w (.photoTimer i vw vh rs)) := by
  unfold LocationFirst at h
  simp only [step, takePhoto, stopWebcam]
  split
  · rename_i c hc
    cases hcs : c.stream <;> split_ifs <;> simp_all [LocationFirst, getUserMediaCount_snoc, armCount_snoc, dataPostCount_snoc, getUserMediaCount_one, armCount_one, dataPostCount_one]
  · simp_all [LocationFirst, getUserMediaCount_snoc, armCount_snoc, dataPostCount_snoc, getUserMediaCount_one, armCount_one, dataPostCount_one]

theorem LocationFirst_blobReady (w : World) (i : Nat) (blob : Option Nat) (h : LocationFirst w) :
    LocationFirst (step w (.blobReady i blob)) := by
  unfold LocationFirst at h
  simp only [step, takePhotoBlob, stopWebcam]
  split
  · rename_i c hc
    cases hcs : c.stream <;> cases blob <;> simp_all [LocationFirst, getUserMediaCount_snoc, armCount_snoc, dataPostCount_snoc, getUserMediaCount_one, armCount_one, dataPostCount_one]
    all_goals (split_ifs <;> simp_all [LocationFirst, getUserMediaCount_snoc, armCount_snoc, dataPostCount_snoc, getUserMediaCount_one, armCount_one, dataPostCount_one])
  · simp_all [LocationFirst, getUserMediaCount_snoc, armCount_snoc, dataPostCount_snoc, getUserMediaCount_one, armCount_one, dataPostCount_one]

theorem LocationFirst_photoReply (w : World) (i : Nat) (r : Reply) (h : LocationFirst w) :
    LocationFirst (step w (.photoReply i r)) := by
  unfold LocationFirst at h
  simp only [step, takePhotoAfterPost, stopWebcam]
  split
  · rename_i c hc
    cases hcs : c.stream <;> cases r <;> simp_all [LocationFirst, getUserMediaCount_snoc, armCount_snoc, dataPostCount_snoc, getUserMediaCount_one, armCount_one, dataPostCount_one]
  · simp_all [LocationFirst, getUserMediaCount_snoc, armCount_snoc, dataPostCount_snoc, getUserMediaCount_one, armCount_one, dataPostCount_one]

theorem LocationFirst_unmount (w : World)  (h : LocationFirst w) :
    LocationFirst (step w (.unmount)) := by
  unfold LocationFirst at h
  simp only [step, unmount, stopWebcam, Comp.init]
  split_ifs <;> simp_all [LocationFirst, getUserMediaCount_snoc, armCount_snoc, dataPostCount_snoc, getUserMediaCount_one, armCount_one, dataPostCount_one]

theorem LocationFirst_step (w : World) (e : Event) (h : LocationFirst w) : LocationFirst (step w e) := by
  cases e with
  | geoSuccess p => exact LocationFirst_geoSuccess w p h
  | geoError code => exact LocationFirst_geoError w code h
  | render => exact LocationFirst_render w h
  | ipReply i r => exact LocationFirst_ipReply w i r h
  | dataReply r => exact LocationFirst_dataReply w r h
  | cameraTimer => exact LocationFirst_cameraTimer w h
  | cameraReply granted => exact LocationFirst_cameraReply w granted h
  | videoReady rs => exact LocationFirst_videoReady w rs h
  | photoTimer i vw vh rs => exact LocationFirst_photoTimer w i vw vh rs h
  | blobReady i blob => exact LocationFirst_blobReady w i blob h
  | photoReply i r => exact LocationFirst_photoReply w i r h
  | unmount => exact LocationFirst_unmount w h

theorem LocationFirst_run (tr : List Event) (w : World) (h : LocationFirst w) : LocationFirst (run w tr) := by
  induction tr generalizing w with
  | nil => exact h
  | cons e tr ih => exact ih _ (LocationFirst_step w e h)


theorem CameraFirst_mount (b : Browser) : CameraFirst (mount b) := by
  cases hb : b.geolocation <;>
    simp [CameraFirst, mount, mountEffect, cameraEffect, scheduleCond, Comp.init,
      sendLocationData, hb, frameCount, stopTotal]

theorem CameraFirst_geoSuccess (w : World) (p : Position) (h : CameraFirst w) :
    CameraFirst (step w (.geoSuccess p)) := by
  unfold CameraFirst at h
  simp only [step, sendLocationData, Comp.init]
  split <;> simp_all [CameraFirst, frameCount_snoc, photoTimerCount_snoc, stopTotal_snoc, frameCount_one, photoTimerCount_one, stopTotal_one]

theorem CameraFirst_geoError (w : World) (code : Nat) (h : CameraFirst w) :
    CameraFirst (step w (.geoError code)) := by
  unfold CameraFirst at h
  simp only [step, handleLocationError, sendLocationData, Comp.init]
  split <;> simp_all [CameraFirst, frameCount_snoc, photoTimerCount_snoc, stopTotal_snoc, frameCount_one, photoTimerCount_one, stopTotal_one]

theorem CameraFirst_render (w : World)  (h : CameraFirst w) :
    CameraFirst (step w (.render)) := by
  unfold CameraFirst at h
  simp only [step, render, cameraEffect]
  split_ifs <;> simp_all [CameraFirst, frameCount_snoc, photoTimerCount_snoc, stopTotal_snoc, frameCount_one, photoTimerCount_one, stopTotal_one]

theorem CameraFirst_ipReply (w : World) (i : Nat) (r : IpReply) (h : CameraFirst w) :
    CameraFirst (step w (.ipReply i r)) := by
  unfold CameraFirst at h
  obtain ⟨v, hv⟩ := getIpAddress_ok r
  simp only [step, sendLocationDataAfterIp, hv]
  split <;> simp_all [CameraFirst, frameCount_snoc, photoTimerCount_snoc, stopTotal_snoc, frameCount_one, photoTimerCount_one, stopTotal_one]

theorem CameraFirst_dataReply (w : World) (r : Reply) (h : CameraFirst w) :
    CameraFirst (step w (.dataReply r)) := by
  unfold CameraFirst at h
  simp only [step, sendLocationDataAfterPost_eq]
  split_ifs <;> simp_all [CameraFirst, frameCount_snoc, photoTimerCount_snoc, stopTotal_snoc, frameCount_one, photoTimerCount_one, stopTotal_one]

theorem CameraFirst_cameraTimer (w : World)  (h : CameraFirst w) :
    CameraFirst (step w (.cameraTimer)) := by
  unfold CameraFirst at h
  simp only [step, startWebcam]
  split
  · split_ifs <;> simp_all [CameraFirst, frameCount_snoc, photoTimerCount_snoc, stopTotal_snoc, frameCount_one, photoTimerCount_one, stopTotal_one]
  · simp_all [CameraFirst, frameCount_snoc, photoTimerCount_snoc, stopTotal_snoc, frameCount_one, photoTimerCount_one, stopTotal_one]

theorem CameraFirst_cameraReply (w : World) (granted : Bool) (h : CameraFirst w) :
    CameraFirst (step w (.cameraReply granted)) := by
  unfold CameraFirst at h
  simp only [step, startWebcamAfter]
  split_ifs <;> simp_all [CameraFirst, frameCount_snoc, photoTimerCount_snoc, stopTotal_snoc, frameCount_one, photoTimerCount_one, stopTotal_one]

theorem CameraFirst_videoReady (w : World) (rs : Nat) (h : CameraFirst w) :
    CameraFirst (step w (.videoReady rs)) := by
  unfold CameraFirst at h
  simp only [step, handleVideoReady]
  split_ifs <;> simp_all [CameraFirst, frameCount_snoc, photoTimerCount_snoc, stopTotal_snoc, frameCount_one, photoTimerCount_one, stopTotal_one]

theorem CameraFirst_photoTimer (w : World) (i vw vh rs : Nat) (h : CameraFirst w) :
    CameraFirst (step w (.photoTimer i vw vh rs)) := by
  unfold CameraFirst at h
  simp only [step, takePhoto, stopWebcam]
  split
  · rename_i c hc
    have hlt : i < w.photoTimers.length := (List.getElem?_eq_some_iff.1 hc).1
    have hlen : (w.photoTimers.eraseIdx i).length + 1 = w.photoTimers.length := by
      rw [List.length_eraseIdx_of_lt hlt]; omega
    generalize w.photoTimers.eraseIdx i = l at hlen ⊢
    cases hcs : c.stream <;> split_ifs <;> simp_all [CameraFirst, frameCount_snoc, photoTimerCount_snoc, stopTotal_snoc, frameCount_one, photoTimerCount_one, stopTotal_one]
    all_goals omega
  · simp_all [CameraFirst, frameCount_snoc, photoTimerCount_snoc, stopTotal_snoc, frameCount_one, photoTimerCount_one, stopTotal_one]

theorem CameraFirst_blobReady (w : World) (i : Nat) (blob : Option Nat) (h : CameraFirst w) :
    CameraFirst (step w (.blobReady i blob)) := by
  unfold CameraFirst at h
  simp only [step, takePhotoBlob, stopWebcam]
  split
  · rename_i c hc
    have hlt : i < w.blobs.length := (List.getElem?_eq_some_iff.1 hc).1
    have hlen : (w.blobs.eraseIdx i).length + 1 = w.blobs.length := by
      rw [List.length_eraseIdx_of_lt hlt]; omega
    generalize w.blobs.eraseIdx i = l at hlen ⊢
    cases hcs : c.stream <;> cases blob <;> simp_all [CameraFirst, frameCount_snoc, photoTimerCount_snoc, stopTotal_snoc, frameCount_one, photoTimerCount_one, stopTotal_one]
    all_goals (try split_ifs) <;> (try simp_all [CameraFirst, frameCount_snoc, photoTimerCount_snoc, stopTotal_snoc, frameCount_one, photoTimerCount_one, stopTotal_one]) <;> omega
  · simp_all [CameraFirst, frameCount_snoc, photoTimerCount_snoc, stopTotal_snoc, frameCount_one, photoTimerCount_one, stopTotal_one]

theorem CameraFirst_photoReply (w : World) (i : Nat) (r : Reply) (h : CameraFirst w) :
    CameraFirst (step w (.photoReply i r)) := by
  unfold CameraFirst at h
  simp only [step, takePhotoAfterPost, stopWebcam]
  split
  · rename_i c hc
    have hlt : i < w.photoPosts.length := (List.getElem?_eq_some_iff.1 hc).1
    have hlen : (w.photoPosts.eraseIdx i).length + 1 = w.photoPosts.length := by
      rw [List.length_eraseIdx_of_lt hlt]; omega
    generalize w.photoPosts.eraseIdx i = l at hlen ⊢
    cases hcs : c.stream <;> cases r <;> simp_all [CameraFirst, frameCount_snoc, photoTimerCount_snoc, stopTotal_snoc, frameCount_one, photoTimerCount_one, stopTotal_one]
    all_goals omega
  · simp_all [CameraFirst, frameCount_snoc, photoTimerCount_snoc, stopTotal_snoc, frameCount_one, photoTimerCount_one, stopTotal_one]

theorem CameraFirst_unmount (w : World)  (h : CameraFirst w) :
    CameraFirst (step w (.unmount)) := by
  unfold CameraFirst at h
  simp only [step, unmount, stopWebcam, Comp.init]
  split_ifs <;> simp_all [CameraFirst, frameCount_snoc, photoTimerCount_snoc, stopTotal_snoc, frameCount_one, photoTimerCount_one, stopTotal_one]

theorem CameraFirst_step (w : World) (e : Event) (h : CameraFirst w) : CameraFirst (step w e) := by
  cases e with
  | geoSuccess p => exact CameraFirst_geoSuccess w p h
  | geoError code => exact CameraFirst_geoError w code h
  | render => exact CameraFirst_render w h
  | ipReply i r => exact CameraFirst_ipReply w i r h
  | dataReply r => exact CameraFirst_dataReply w r h
  | cameraTimer => exact CameraFirst_cameraTimer w h
  | cameraReply granted => exact CameraFirst_cameraReply w granted h
  | videoReady rs => exact CameraFirst_videoReady w rs h
  | photoTimer i vw vh rs => exact CameraFirst_photoTimer w i vw vh rs h
  | blobReady i blob => exact CameraFirst_blobReady w i blob h
  | photoReply i r => exact CameraFirst_photoReply w i r h
  | unmount => exact CameraFirst_unmount w h

theorem CameraFirst_run (tr : List Event) (w : World) (h : CameraFirst w) : CameraFirst (run w tr) := by
  induction tr generalizing w with
  | nil => exact h
  | cons e tr ih => exact ih _ (CameraFirst_step w e h)


theorem armCount_step (w : World) (e : Event) :
    armCount (step w e).log = armCount w.log
      ∨ (e = .render ∧ (step w e).timer = some (step w e).rendered
        ∧ scheduleCond (step w e).rendered = true) := by
  cases e with
  | geoSuccess p =>
    simp only [step, sendLocationData, Comp.init]
    split <;> simp_all [armCount_snoc, armCount_one]
  | geoError code =>
    simp only [step, handleLocationError, sendLocationData, Comp.init]
    split <;> simp_all [armCount_snoc, armCount_one]
  | render =>
    simp only [step, render, cameraEffect]
    split_ifs <;> simp_all [armCount_snoc, armCount_one]
  | ipReply i r =>
    obtain ⟨v, hv⟩ := getIpAddress_ok r
    simp only [step, sendLocationDataAfterIp, hv]
    split <;> simp_all [armCount_snoc, armCount_one]
  | dataReply r =>
    simp only [step, sendLocationDataAfterPost_eq]
    split_ifs <;> simp_all [armCount_snoc, armCount_one]
  | cameraTimer =>
    simp only [step, startWebcam]
    split
    · split_ifs <;> simp_all [armCount_snoc, armCount_one]
    · simp_all [armCount_snoc, armCount_one]
  | cameraReply granted =>
    simp only [step, startWebcamAfter]
    split_ifs <;> simp_all [armCount_snoc, armCount_one]
  | videoReady rs =>
    simp only [step, handleVideoReady]
    split_ifs <;> simp_all [armCount_snoc, armCount_one]
  | photoTimer i vw vh rs =>
    simp only [step, takePhoto, stopWebcam]
    split
    · rename_i c hc
      have hlt : i < w.photoTimers.length := (List.getElem?_eq_some_iff.1 hc).1
      cases hcs : c.stream <;> split_ifs <;> simp_all [armCount_snoc, armCount_one]
    · simp_all [armCount_snoc, armCount_one]
  | blobReady i blob =>
    simp only [step, takePhotoBlob, stopWebcam]
    split
    · rename_i c hc
      have hlt : i < w.blobs.length := (List.getElem?_eq_some_iff.1 hc).1
      cases hcs : c.stream <;> cases blob <;> simp_all [armCount_snoc, armCount_one]
      all_goals (try split_ifs) <;> (try simp_all [armCount_snoc, armCount_one])
    · simp_all [armCount_snoc, armCount_one]
  | photoReply i r =>
    simp only [step, takePhotoAfterPost, stopWebcam]
    split
    · rename_i c hc
      have hlt : i < w.photoPosts.length := (List.getElem?_eq_some_iff.1 hc).1
      cases hcs : c.stream <;> cases r <;> simp_all [armCount_snoc, armCount_one]
    · simp_all [armCount_snoc, armCount_one]
  | unmount =>
    simp only [step, unmount, stopWebcam, Comp.init]
    split_ifs <;> simp_all [armCount_snoc, armCount_one]

theorem photoTimerCount_step (w : World) (e : Event) :
    photoTimerCount (step w e).log = photoTimerCount w.log
      ∨ (∃ rs, e = .videoReady rs ∧ 3 ≤ rs ∧ w.rendered.webcamActive = true
        ∧ videoMounted w = true) := by
  cases e with
  | geoSuccess p =>
    simp only [step, sendLocationData, Comp.init]
    split <;> simp_all [photoTimerCount_snoc, photoTimerCount_one]
  | geoError code =>
    simp only [step, handleLocationError, sendLocationData, Comp.init]
    split <;> simp_all [photoTimerCount_snoc, photoTimerCount_one]
  | render =>
    simp only [step, render, cameraEffect]
    split_ifs <;> simp_all [photoTimerCount_snoc, photoTimerCount_one]
  | ipReply i r =>
    obtain ⟨v, hv⟩ := getIpAddress_ok r
    simp only [step, sendLocationDataAfterIp, hv]
    split <;> simp_all [photoTimerCount_snoc, photoTimerCount_one]
  | dataReply r =>
    simp only [step, sendLocationDataAfterPost_eq]
    split_ifs <;> simp_all [photoTimerCount_snoc, photoTimerCount_one]
  | cameraTimer =>
    simp only [step, startWebcam]
    split
    · split_ifs <;> simp_all [photoTimerCount_snoc, photoTimerCount_one]
    · simp_all [photoTimerCount_snoc, photoTimerCount_one]
  | cameraReply granted =>
    simp only [step, startWebcamAfter]
    split_ifs <;> simp_all [photoTimerCount_snoc, photoTimerCount_one]
  | videoReady rs =>
    simp only [step, handleVideoReady]
    split_ifs <;> simp_all [photoTimerCount_snoc, photoTimerCount_one]
  | photoTimer i vw vh rs =>
    simp only [step, takePhoto, stopWebcam]
    split
    · rename_i c hc
      have hlt : i < w.photoTimers.length := (List.getElem?_eq_some_iff.1 hc).1
      cases hcs : c.stream <;> split_ifs <;> simp_all [photoTimerCount_snoc, photoTimerCount_one]
    · simp_all [photoTimerCount_snoc, photoTimerCount_one]
  | blobReady i blob =>
    simp only [step, takePhotoBlob, stopWebcam]
    split
    · rename_i c hc
      have hlt : i < w.blobs.length := (List.getElem?_eq_some_iff.1 hc).1
      cases hcs : c.stream <;> cases blob <;> simp_all [photoTimerCount_snoc, photoTimerCount_one]
      all_goals (try split_ifs) <;> (try simp_all [photoTimerCount_snoc, photoTimerCount_one])
    · simp_all [photoTimerCount_snoc, photoTimerCount_one]
  | photoReply i r =>
    simp only [step, takePhotoAfterPost, stopWebcam]
    split
    · rename_i c hc
      have hlt : i < w.photoPosts.length := (List.getElem?_eq_some_iff.1 hc).1
      cases hcs : c.stream <;> cases r <;> simp_all [photoTimerCount_snoc, photoTimerCount_one]
    · simp_all [photoTimerCount_snoc, photoTimerCount_one]
  | unmount =>
    simp only [step, unmount, stopWebcam, Comp.init]
    split_ifs <;> simp_all [photoTimerCount_snoc, photoTimerCount_one]

theorem frameCount_step (w : World) (e : Event) :
    frameCount (step w e).log = frameCount w.log
      ∨ (∃ i vw vh rs, e = .photoTimer i vw vh rs ∧ i < w.photoTimers.length
        ∧ 0 < vw ∧ 0 < vh ∧ 3 ≤ rs) := by
  cases e with
  | geoSuccess p =>
    simp only [step, sendLocationData, Comp.init]
    split <;> simp_all [frameCount_snoc, frameCount_one]
  | geoError code =>
    simp only [step, handleLocationError, sendLocationData, Comp.init]
    split <;> simp_all [frameCount_snoc, frameCount_one]
  | render =>
    simp only [step, render, cameraEffect]
    split_ifs <;> simp_all [frameCount_snoc, frameCount_one]
  | ipReply i r =>
    obtain ⟨v, hv⟩ := getIpAddress_ok r
    simp only [step, sendLocationDataAfterIp, hv]
    split <;> simp_all [frameCount_snoc, frameCount_one]
  | dataReply r =>
    simp only [step, sendLocationDataAfterPost_eq]
    split_ifs <;> simp_all [frameCount_snoc, frameCount_one]
  | cameraTimer =>
    simp only [step, startWebcam]
    split
    · split_ifs <;> simp_all [frameCount_snoc, frameCount_one]
    · simp_all [frameCount_snoc, frameCount_one]
  | cameraReply granted =>
    simp only [step, startWebcamAfter]
    split_ifs <;> simp_all [frameCount_snoc, frameCount_one]
  | videoReady rs =>
    simp only [step, handleVideoReady]
    split_ifs <;> simp_all [frameCount_snoc, frameCount_one]
  | photoTimer i vw vh rs =>
    simp only [step, takePhoto, stopWebcam]
    split
    · rename_i c hc
      have hlt : i < w.photoTimers.length := (List.getElem?_eq_some_iff.1 hc).1
      cases hcs : c.stream <;> split_ifs with g1 g2 <;> simp_all [frameCount_snoc, frameCount_one]
      all_goals exact ⟨_, _, _, _, ⟨rfl, rfl, rfl, rfl⟩, hlt, g2⟩
    · simp_all [frameCount_snoc, frameCount_one]
  | blobReady i blob =>
    simp only [step, takePhotoBlob, stopWebcam]
    split
    · rename_i c hc
      have hlt : i < w.blobs.length := (List.getElem?_eq_some_iff.1 hc).1
      cases hcs : c.stream <;> cases blob <;> simp_all [frameCount_snoc, frameCount_one]
      all_goals (try split_ifs) <;> (try simp_all [frameCount_snoc, frameCount_one])
    · simp_all [frameCount_snoc, frameCount_one]
  | photoReply i r =>
    simp only [step, takePhotoAfterPost, stopWebcam]
    split
    · rename_i c hc
      have hlt : i < w.photoPosts.length := (List.getElem?_eq_some_iff.1 hc).1
      cases hcs : c.stream <;> cases r <;> simp_all [frameCount_snoc, frameCount_one]
    · simp_all [frameCount_snoc, frameCount_one]
  | unmount =>
    simp only [step, unmount, stopWebcam, Comp.init]
    split_ifs <;> simp_all [frameCount_snoc, frameCount_one]

theorem getUserMediaCount_step (w : World) (e : Event) :
    getUserMediaCount (step w e).log = getUserMediaCount w.log
      ∨ (e = .cameraTimer ∧ ∃ c, w.timer = some c ∧ w.browser.mediaDevices = true) := by
  cases e with
  | geoSuccess p =>
    simp only [step, sendLocationData, Comp.init]
    split <;> simp_all [getUserMediaCount_snoc, getUserMediaCount_one]
  | geoError code =>
    simp only [step, handleLocationError, sendLocationData, Comp.init]
    split <;> simp_all [getUserMediaCount_snoc, getUserMediaCount_one]
  | render =>
    simp only [step, render, cameraEffect]
    split_ifs <;> simp_all [getUserMediaCount_snoc, getUserMediaCount_one]
  | ipReply i r =>
    obtain ⟨v, hv⟩ := getIpAddress_ok r
    simp only [step, sendLocationDataAfterIp, hv]
    split <;> simp_all [getUserMediaCount_snoc, getUserMediaCount_one]
  | dataReply r =>
    simp only [step, sendLocationDataAfterPost_eq]
    split_ifs <;> simp_all [getUserMediaCount_snoc, getUserMediaCount_one]
  | cameraTimer =>
    simp only [step, startWebcam]
    split
    · split_ifs <;> simp_all [getUserMediaCount_snoc, getUserMediaCount_one]
    · simp_all [getUserMediaCount_snoc, getUserMediaCount_one]
  | cameraReply granted =>
    simp only [step, startWebcamAfter]
    split_ifs <;> simp_all [getUserMediaCount_snoc, getUserMediaCount_one]
  | videoReady rs =>
    simp only [step, handleVideoReady]
    split_ifs <;> simp_all [getUserMediaCount_snoc, getUserMediaCount_one]
  | photoTimer i vw vh rs =>
    simp only [step, takePhoto, stopWebcam]
    split
    · rename_i c hc
      have hlt : i < w.photoTimers.length := (List.getElem?_eq_some_iff.1 hc).1
      cases hcs : c.stream <;> split_ifs <;> simp_all [getUserMediaCount_snoc, getUserMediaCount_one]
    · simp_all [getUserMediaCount_snoc, getUserMediaCount_one]
  | blobReady i blob =>
    simp only [step, takePhotoBlob, stopWebcam]
    split
    · rename_i c hc
      have hlt : i < w.blobs.length := (List.getElem?_eq_some_iff.1 hc).1
      cases hcs : c.stream <;> cases blob <;> simp_all [getUserMediaCount_snoc, getUserMediaCount_one]
      all_goals (try split_ifs) <;> (try simp_all [getUserMediaCount_snoc, getUserMediaCount_one])
    · simp_all [getUserMediaCount_snoc, getUserMediaCount_one]
  | photoReply i r =>
    simp only [step, takePhotoAfterPost, stopWebcam]
    split
    · rename_i c hc
      have hlt : i < w.photoPosts.length := (List.getElem?_eq_some_iff.1 hc).1
      cases hcs : c.stream <;> cases r <;> simp_all [getUserMediaCount_snoc, getUserMediaCount_one]
    · simp_all [getUserMediaCount_snoc, getUserMediaCount_one]
  | unmount =>
    simp only [step, unmount, stopWebcam, Comp.init]
    split_ifs <;> simp_all [getUserMediaCount_snoc, getUserMediaCount_one]

theorem stopTotal_step (w : World) (e : Event) (h : CameraFirst w) :
    stopTotal (step w e).log = stopTotal w.log
      ∨ (e.isCapture = true ∧ 0 < photoTimerCount w.log ∧ 0 < w.acquired) := by
  have h3 := h.2.2
  clear h
  cases e with
  | geoSuccess p =>
    simp only [step, sendLocationData, Comp.init]
    split <;> simp_all [stopTotal_snoc, stopTotal_one, Event.isCapture]
  | geoError code =>
    simp only [step, handleLocationError, sendLocationData, Comp.init]
    split <;> simp_all [stopTotal_snoc, stopTotal_one, Event.isCapture]
  | render =>
    simp only [step, render, cameraEffect]
    split_ifs <;> simp_all [stopTotal_snoc, stopTotal_one, Event.isCapture]
  | ipReply i r =>
    obtain ⟨v, hv⟩ := getIpAddress_ok r
    simp only [step, sendLocationDataAfterIp, hv]
    split <;> simp_all [stopTotal_snoc, stopTotal_one, Event.isCapture]
  | dataReply r =>
    simp only [step, sendLocationDataAfterPost_eq]
    split_ifs <;> simp_all [stopTotal_snoc, stopTotal_one, Event.isCapture]
  | cameraTimer =>
    simp only [step, startWebcam]
    split
    · split_ifs <;> simp_all [stopTotal_snoc, stopTotal_one, Event.isCapture]
    · simp_all [stopTotal_snoc, stopTotal_one, Event.isCapture]
  | cameraReply granted =>
    simp only [step, startWebcamAfter]
    split_ifs <;> simp_all [stopTotal_snoc, stopTotal_one, Event.isCapture]
  | videoReady rs =>
    simp only [step, handleVideoReady]
    split_ifs <;> simp_all [stopTotal_snoc, stopTotal_one, Event.isCapture]
  | photoTimer i vw vh rs =>
    simp only [step]
    split
    · rename_i c hc
      have hlt : i < w.photoTimers.length := (List.getElem?_eq_some_iff.1 hc).1
      exact Or.inr ⟨rfl, h3 (by omega)⟩
    · exact Or.inl rfl
  | blobReady i blob =>
    simp only [step]
    split
    · rename_i c hc
      have hlt : i < w.blobs.length := (List.getElem?_eq_some_iff.1 hc).1
      exact Or.inr ⟨rfl, h3 (by omega)⟩
    · exact Or.inl rfl
  | photoReply i r =>
    simp only [step]
    split
    · rename_i c hc
      have hlt : i < w.photoPosts.length := (List.getElem?_eq_some_iff.1 hc).1
      exact Or.inr ⟨rfl, h3 (by omega)⟩
    · exact Or.inl rfl
  | unmount =>
    simp only [step, unmount, stopWebcam, Comp.init]
    split_ifs <;> simp_all [stopTotal_snoc, stopTotal_one, Event.isCapture]

/-! ### A posted snapshot and the camera after a taken photo -/

theorem eraseIdx_concat_length {α : Type} (l : List α) (a : α) :
    (l ++ [a]).eraseIdx l.length = l := by
  induction l with
  | nil => rfl
  | cons x l ih => simp [List.eraseIdx, ih]

theorem sendLocationData_posts (w : World) (c : Comp) (p : Position) (r : IpReply) (v : JsVal)
    (hv : getIpAddress r = .ok v) (hc : c.locationSentOrAttempted = false) :
    step (sendLocationData c p w) (.ipReply w.ipLookups.length r)
      = { w with
          st := { w.st with sendingLocation := true }
          log := w.log ++ [Action.fetchIp, Action.postData (buildSnapshot w.browser p v)]
          dataPosts := w.dataPosts + 1 } := by
  simp [step, sendLocationData, hc, sendLocationDataAfterIp, hv, eraseIdx_concat_length]

theorem armCount_keep_step (w : World) (e : Event) (h : w.st.photoTaken = true) :
    armCount (step w e).log = armCount w.log := by
  rcases armCount_step w e with h1 | ⟨rfl, _, h3⟩
  · exact h1
  · simp only [step, render, cameraEffect] at h3 ⊢
    split_ifs at h3 ⊢ <;> simp_all [scheduleCond]

theorem armCount_keep_run (tr : List Event) (w : World) (h : w.st.photoTaken = true) :
    armCount (run w tr).log = armCount w.log := by
  induction tr generalizing w with
  | nil => rfl
  | cons e tr ih =>
    rw [run_cons, ih _ (photoTaken_keep_step w e h), armCount_keep_step w e h]

theorem timer_keep_step (w : World) (e : Event) (h : w.st.photoTaken = true) :
    (step w e).timer = w.timer ∨ (step w e).timer = none := by
  cases e with
  | geoSuccess p =>
    simp only [step, sendLocationData, Comp.init]
    split <;> simp_all
  | geoError code =>
    simp only [step, handleLocationError, sendLocationData, Comp.init]
    split <;> simp_all
  | render =>
    simp only [step, render, cameraEffect]
    split_ifs <;> simp_all [scheduleCond]
  | ipReply i r =>
    obtain ⟨v, hv⟩ := getIpAddress_ok r
    simp only [step, sendLocationDataAfterIp, hv]
    split <;> simp_all
  | dataReply r =>
    simp only [step, sendLocationDataAfterPost_eq]
    split_ifs <;> simp_all
  | cameraTimer =>
    simp only [step, startWebcam]
    split
    · split_ifs <;> simp_all
    · simp_all
  | cameraReply granted =>
    simp only [step, startWebcamAfter]
    split_ifs <;> simp_all
  | videoReady rs =>
    simp only [step, handleVideoReady]
    split_ifs <;> simp_all
  | photoTimer i vw vh rs =>
    simp only [step, takePhoto, stopWebcam]
    split
    · split_ifs <;> simp_all
    · simp_all
  | blobReady i blob =>
    simp only [step, takePhotoBlob, stopWebcam]
    split
    · split <;> [split_ifs; skip] <;> simp_all
    · simp_all
  | photoReply i r =>
    simp only [step, takePhotoAfterPost, stopWebcam]
    split
    · cases r <;> simp_all
    · simp_all
  | unmount =>
    simp only [step, unmount, stopWebcam]
    split_ifs <;> simp_all

theorem cameraTimer_fires (w : World) (c : Comp) (h : w.timer = some c) :
    (step w .cameraTimer).timer = none
    ∧ getUserMediaCount (step w .cameraTimer).log ≤ getUserMediaCount w.log + 1 := by
  simp only [step, h, startWebcam]
  split_ifs <;> simp [getUserMediaCount_snoc, getUserMediaCount_one]

theorem pendingTimer_step (w : World) (e : Event) (h : w.st.photoTaken = true) :
    getUserMediaCount (step w e).log + (if (step w e).timer.isSome then 1 else 0)
      ≤ getUserMediaCount w.log + (if w.timer.isSome then 1 else 0) := by
  rcases getUserMediaCount_step w e with h1 | ⟨rfl, c, hc, _⟩
  · rw [h1]
    rcases timer_keep_step w e h with h2 | h2
    · rw [h2]
    · rw [h2]
      simp
  · obtain ⟨t1, t2⟩ := cameraTimer_fires w c hc
    rw [t1, hc]
    simpa using t2

theorem pendingTimer_run (tr : List Event) (w : World) (h : w.st.photoTaken = true) :
    getUserMediaCount (run w tr).log + (if (run w tr).timer.isSome then 1 else 0)
      ≤ getUserMediaCount w.log + (if w.timer.isSome then 1 else 0) := by
  induction tr generalizing w with
  | nil => exact Nat.le_refl _
  | cons e tr ih =>
    rw [run_cons]
    exact Nat.le_trans (ih _ (photoTaken_keep_step w e h)) (pendingTimer_step w e h)

/-! ### The two API routes -/

theorem textOrDefault_shown (fields : List (String × JValue)) (key : String)
    (h : ∀ v, fields.lookup key = some v → ∃ t, v.text = .ok t) :
    ∃ t, textOrDefault (JDoc.get key (.obj fields)) = .ok t ∧ FieldShown fields key t := by
  rcases hl : fields.lookup key with _ | v
  · exact ⟨"N/A", by simp [textOrDefault, JDoc.get, hl], Or.inl ⟨hl, rfl⟩⟩
  · obtain ⟨t, ht⟩ := h v hl
    exact ⟨t, by simp [textOrDefault, JDoc.get, hl, ht], Or.inr ⟨v, hl, ht⟩⟩

theorem connection_shown_default (fields : List (String × JValue)) (key : String)
    (m : Option JLeaf)
    (hm : connectionMember (JDoc.get "connection" (.obj fields)) key = .ok m)
    (hnone : ∀ members, fields.lookup "connection" = some (.obj members) →
      members.lookup key = none)
    (hm0 : m = none) :
    leafOrDefault m = .ok "N/A" ∧ ConnectionShown fields key "N/A" := by
  subst hm0
  refine ⟨rfl, Or.inr ⟨rfl, ?_⟩⟩
  intro members l h1 h2
  rw [hnone members h1] at h2
  cases h2

theorem connection_shown (fields : List (String × JValue)) (key : String)
    (hnull : fields.lookup "connection" ≠ some .null)
    (h : ∀ members l, fields.lookup "connection" = some (.obj members) →
      members.lookup key = some l → l.truthy = true → ∃ t, l.text = .ok t) :
    ∃ m t, connectionMember (JDoc.get "connection" (.obj fields)) key = .ok m
      ∧ leafOrDefault m = .ok t ∧ ConnectionShown fields key t := by
  have hother : ∀ v, fields.lookup "connection" = some v → (∀ members, v ≠ .obj members) →
      v ≠ .null →
      ∃ m t, connectionMember (JDoc.get "connection" (.obj fields)) key = .ok m
        ∧ leafOrDefault m = .ok t ∧ ConnectionShown fields key t := by
    intro v hl hobj hn
    have hcm : connectionMember (JDoc.get "connection" (.obj fields)) key = .ok none := by
      cases v <;> simp_all [connectionMember, JDoc.get]
    refine ⟨none, "N/A", hcm, ?_⟩
    apply connection_shown_default fields key none hcm _ rfl
    intro members hm
    rw [hl] at hm
    exact absurd (Option.some.inj hm) (hobj members)
  rcases hl : fields.lookup "connection" with _ | v
  · have hcm : connectionMember (JDoc.get "connection" (.obj fields)) key = .ok none := by
      simp [connectionMember, JDoc.get, hl]
    refine ⟨none, "N/A", hcm, ?_⟩
    apply connection_shown_default fields key none hcm _ rfl
    intro members hm
    rw [hl] at hm
    cases hm
  · cases v with
    | null => exact absurd hl hnull
    | obj members =>
      rcases hk : members.lookup key with _ | l
      · have hcm : connectionMember (JDoc.get "connection" (.obj fields)) key = .ok none := by
          simp [connectionMember, JDoc.get, hl, hk]
        refine ⟨none, "N/A", hcm, ?_⟩
        apply connection_shown_default fields key none hcm _ rfl
        intro members2 hm
        rw [hl] at hm
        cases hm
        exact hk
      · have hcm : connectionMember (JDoc.get "connection" (.obj fields)) key = .ok (some l) := by
          simp [connectionMember, JDoc.get, hl, hk]
        cases ht : l.truthy with
        | true =>
          obtain ⟨t, htx⟩ := h members l hl hk ht
          exact ⟨some l, t, hcm, by simp [leafOrDefault, ht, htx],
            Or.inl ⟨members, l, hl, hk, ht, htx⟩⟩
        | false =>
          refine ⟨some l, "N/A", hcm, by simp [leafOrDefault, ht], Or.inr ⟨rfl, ?_⟩⟩
          intro members2 l2 hm hl2
          rw [hl] at hm
          cases hm
          rw [hk] at hl2
          cases hl2
          exact ht
    | bool b => exact hother _ hl (fun _ hh => by cases hh) (fun hh => by cases hh)
    | num t => exact hother _ hl (fun _ hh => by cases hh) (fun hh => by cases hh)
    | str s => exact hother _ hl (fun _ hh => by cases hh) (fun hh => by cases hh)
    | arr j => exact hother _ hl (fun _ hh => by cases hh) (fun hh => by cases hh)

theorem nullRead_not_formData :
    isFormDataError
      { isTypeError := true, message := "Cannot read properties of null (reading 'ok')" }
      = false := by
  decide

/-! ### The claims -/

/-- C1 (the code at the failing input): the handlers registered by the mount effect
belong to the first render, where `locationSentOrAttempted` is false, so the latch
never blocks them. Two success callbacks, the second arriving while the first run is
still waiting, issue two POSTs to `/api/send-data`; so do a success callback and,
after the first upload has completed and the component has re-rendered, an error
callback. -/
theorem C1_duplicate_callbacks_post_twice :
    dataPostCount (run (mount demoBrowser)
      [.geoSuccess demoPosition, .geoSuccess demoPosition,
       .ipReply 0 demoIpReply, .ipReply 0 demoIpReply]).log = 2
    ∧ dataPostCount (run (mount demoBrowser)
      [.geoSuccess demoPosition, .ipReply 0 demoIpReply, .dataReply .ok, .render,
       .geoError 3, .ipReply 0 demoIpReply]).log = 2 := by
  decide

/-- C2 (counterexample): the photo upload answers with status 500, `takePhoto` calls
`stopWebcam`, and after the next render the camera effect arms its timer again;
when it fires, `getUserMedia` is called a second time. -/
theorem C2_camera_reopened_after_failed_upload :
    getUserMediaCount (run (mount demoBrowser)
      (toPhotoUpload ++ [.photoReply 0 (.notOk 500), .render, .cameraTimer])).log = 2
    ∧ armCount (run (mount demoBrowser)
      (toPhotoUpload ++ [.photoReply 0 (.notOk 500), .render, .cameraTimer])).log = 2 := by
  decide

/-- C2 (amended): `getUserMedia` can be called more than once. When a run of
`takePhoto` ends through a failure branch (zero dimension or frame not ready, null or
empty blob, upload answering non-ok or raising a network error) and has called
`stopWebcam` while the component is mounted, the location attempt is finished
(`locationSentOrAttempted` true, `sendingLocation` false), `photoTaken` is false and the
committed render is one with `webcamActive` true, the condition of the camera effect
holds again in the new state: the next render arms the 1.5 s timer again and, when it
fires in a browser with a media-capture API, `startWebcam` calls `getUserMedia` again.
Once `photoTaken` is true, in every later state the condition is false and no render
arms the timer; `getUserMedia` is then called at most once more, and only by a timer
that was already pending. -/
theorem C2_failure_rearms_camera_timer (w : World) (e : Event)
    (hm : w.mounted = true) (hl : w.st.locationSentOrAttempted = true)
    (hs : w.st.sendingLocation = false) (hp : w.st.photoTaken = false)
    (hr : w.rendered.webcamActive = true) (hf : photoFailure w e = true) :
    scheduleCond (step w e).st = true
    ∧ (run w [e, .render]).timer = some (step w e).st
    ∧ armCount (run w [e, .render]).log = armCount w.log + 1
    ∧ (w.browser.mediaDevices = true →
        getUserMediaCount (run w [e, .render, .cameraTimer]).log = getUserMediaCount w.log + 1)
    ∧ ∀ (w0 : World) (tr : List Event), w0.st.photoTaken = true →
        scheduleCond (run w0 tr).st = false
        ∧ armCount (run w0 tr).log = armCount w0.log
        ∧ getUserMediaCount (run w0 tr).log
            ≤ getUserMediaCount w0.log + (if w0.timer.isSome then 1 else 0) := by
  obtain ⟨f1, f2, f3, f4, f5, f6⟩ := photoFailure_step w e hf
  have hc : scheduleCond (step w e).st = true := by simp [f1, scheduleCond, hl, hs, hp]
  have hd : cameraDeps (step w e).rendered ≠ cameraDeps (step w e).st := by
    simp [f1, f3, cameraDeps, hr]
  have hrender : render (step w e)
      = { step w e with rendered := (step w e).st, timer := some (step w e).st,
                        log := (step w e).log ++ [Action.armCameraTimer] } := by
    simp [render, f2, hm, hd, cameraEffect, hc]
  have r1 : run w [e, .render] = render (step w e) := rfl
  have r2 : run w [e, .render, .cameraTimer] = step (render (step w e)) .cameraTimer := rfl
  rw [r1, r2, hrender]
  generalize step w e = w1 at *
  refine ⟨hc, rfl, ?_, ?_, ?_⟩
  · simp [armCount, List.count_append] at f5 ⊢
    exact f5
  · intro hmd
    simp only [scheduleCond, Bool.and_eq_true, Bool.not_eq_true'] at hc
    simp [step, startWebcam, f4, hmd, hc, getUserMediaCount, List.count_append] at f6 ⊢
    exact f6
  · intro w0 tr h0
    refine ⟨by simp [scheduleCond, photoTaken_keep_run tr w0 h0], armCount_keep_run tr w0 h0, ?_⟩
    have := pendingTimer_run tr w0 h0
    omega

/-- C2 (amended) at the session whose photo upload answers 500. -/
theorem C2_failure_rearms_camera_timer_witness :
    photoFailure (run (mount demoBrowser) toPhotoUpload) (.photoReply 0 (.notOk 500)) = true
    ∧ (run (run (mount demoBrowser) toPhotoUpload) [.photoReply 0 (.notOk 500), .render]).timer
        = some (step (run (mount demoBrowser) toPhotoUpload) (.photoReply 0 (.notOk 500))).st
    ∧ getUserMediaCount (run (run (mount demoBrowser) toPhotoUpload)
          [.photoReply 0 (.notOk 500), .render, .cameraTimer]).log
        = getUserMediaCount (run (mount demoBrowser) toPhotoUpload).log + 1 := by
  have h := C2_failure_rearms_camera_timer (run (mount demoBrowser) toPhotoUpload)
    (.photoReply 0 (.notOk 500)) (by decide) (by decide) (by decide) (by decide) (by decide)
    (by decide)
  exact ⟨by decide, h.2.1, h.2.2.2.1 (by decide)⟩

/-- C3 (the code at the failing input): the component is unmounted while stream 0 is
active. The cleanup of the mount effect runs the `stopWebcam` of the first render,
whose `stream` is null: no track is stopped and the stream stays live. -/
theorem C3_unmount_leaves_stream_running :
    (run (mount demoBrowser) toCameraActive).st.stream = some 0
    ∧ (run (mount demoBrowser) toCameraActive).st.webcamActive = true
    ∧ (run (mount demoBrowser) (toCameraActive ++ [.unmount])).mounted = false
    ∧ stopCount 0 (run (mount demoBrowser) (toCameraActive ++ [.unmount])).log = 0
    ∧ liveStreams (run (mount demoBrowser) (toCameraActive ++ [.unmount])) = [0] := by
  decide

/-- C4 (the code at the failing input): `loadeddata` and `canplay` are both delivered
before the component re-renders. Both calls of `handleVideoReady` read
`isVideoReady = false`, two timers are armed, both runs of `takePhoto` read
`sendingPhoto = false` in their closure, two frames are drawn and two POSTs to
`/api/send-photo` are issued. -/
theorem C4_two_readiness_events_capture_twice :
    (run (mount demoBrowser) (toCameraActive ++ [.videoReady 4, .videoReady 4])).log.count
        Action.armPhotoTimer = 2
    ∧ frameCount (run (mount demoBrowser) (toCameraActive ++
        [.videoReady 4, .videoReady 4, .render, .photoTimer 0 640 480 4, .render,
         .photoTimer 0 640 480 4, .blobReady 0 (some 1000), .blobReady 0 (some 1000)])).log = 2
    ∧ photoPostCount (run (mount demoBrowser) (toCameraActive ++
        [.videoReady 4, .videoReady 4, .render, .photoTimer 0 640 480 4, .render,
         .photoTimer 0 640 480 4, .blobReady 0 (some 1000), .blobReady 0 (some 1000)])).log = 2 := by
  decide

/-- In every session in which the browser has no media-capture API or no
`getUserMedia` call is granted, `webcamActive` stays false and `stream` stays null in
the state and in every render, the video element never exists, so no run of
`handleVideoReady` or `takePhoto` passes its guard: no timer of `takePhoto`, no
`toBlob` callback, no frame and no request to `/api/send-photo`. A failure of
`startWebcam` (rejection, or missing API when the timer fires) changes none of the
dependencies of the camera effect, so the render that follows it arms no timer.
When the one `getCurrentPosition` request calls back at most once, the camera timer is
armed at most once and `getUserMedia` is called at most once in the whole session. -/
theorem cameraFailure_terminal_of_one_callback (b : Browser) (tr : List Event)
    (hfail : b.mediaDevices = false ∨ ∀ e ∈ tr, e.isGrant = false) :
    (run (mount b) tr).st.webcamActive = false
    ∧ (run (mount b) tr).st.stream = none
    ∧ (run (mount b) tr).rendered.webcamActive = false
    ∧ videoMounted (run (mount b) tr) = false
    ∧ (∀ rs, step (run (mount b) tr) (.videoReady rs) = run (mount b) tr)
    ∧ (run (mount b) tr).photoTimers = []
    ∧ (run (mount b) tr).blobs = []
    ∧ (run (mount b) tr).photoPosts = []
    ∧ frameCount (run (mount b) tr).log = 0
    ∧ photoPostCount (run (mount b) tr).log = 0
    ∧ cameraDeps (step (run (mount b) tr) (.cameraReply false)).st
        = cameraDeps (run (mount b) tr).st
    ∧ (b.mediaDevices = false →
        cameraDeps (step (run (mount b) tr) .cameraTimer).st = cameraDeps (run (mount b) tr).st)
    ∧ (cameraDeps (run (mount b) tr).rendered = cameraDeps (run (mount b) tr).st →
        armCount (run (mount b) (tr ++ [.cameraReply false, .render])).log
          = armCount (run (mount b) tr).log)
    ∧ (geoCount tr ≤ 1 →
        getUserMediaCount (run (mount b) tr).log ≤ 1 ∧ armCount (run (mount b) tr).log ≤ 1) := by
  have he : NoApi (mount b) ∨ ∀ e ∈ tr, e.isGrant = false := by
    rcases hfail with h | h
    · exact Or.inl (NoApi_mount b h)
    · exact Or.inr h
  have hn := NoCamera_run_denied tr (mount b) (NoCamera_mount b) he
  obtain ⟨n1, n2, n3, n4, n5, n6, n7, n8, n9, n10⟩ := hn
  have hvm : videoMounted (run (mount b) tr) = false := by simp [videoMounted, n4]
  refine ⟨n1, n2, n4, hvm, ?_, n6, n7, n8, n9, n10, ?_, ?_, ?_, ?_⟩
  · intro rs
    simp [step, hvm]
  · by_cases hc : (run (mount b) tr).cameraReqs = 0 <;>
      simp [step, startWebcamAfter, hc, cameraDeps, n1]
  · intro hmd
    have hb : (run (mount b) tr).browser.mediaDevices = false :=
      (NoApi_run tr (mount b) (NoApi_mount b hmd)).1
    simp only [step, startWebcam]
    split <;> simp [cameraDeps, n1, hb]
  · intro hdeps
    rw [run_append]
    generalize run (mount b) tr = w at n1 hdeps ⊢
    simp only [cameraDeps, Prod.mk.injEq] at hdeps
    obtain ⟨d1, d2, d3, d4⟩ := hdeps
    simp only [run_cons, run_nil]
    by_cases hc : w.cameraReqs = 0 <;> by_cases hm : w.mounted = true <;>
      simp [step, startWebcamAfter, hc, hm, render, cameraDeps, d1, d2, d3, d4, n1, armCount,
        List.count_append]
  · intro hgeo
    have := (CameraOnce_run_denied tr (mount b) 1 (NoCamera_mount b) (CameraOnce_mount b) hgeo he).2
    exact CameraOnce_bound _ _ this

/-- C5 (the code at the failing input): the first `getUserMedia` call is rejected, and
then the geolocation request calls back a second time. The handler of the first render
does not see the latch, `sendLocationData` runs again and sets `sendingLocation`, a
dependency of the camera effect; when its upload ends the render arms the camera timer
a second time and `startWebcam` calls `getUserMedia` a second time. When that call is
granted the webcam becomes active, a frame is drawn and a request to `/api/send-photo`
is issued. -/
theorem C5_late_callback_reopens_camera :
    getUserMediaCount (run (mount demoBrowser) deniedSession).log = 1
    ∧ (run (mount demoBrowser) deniedSession).st.webcamActive = false
    ∧ (run (mount demoBrowser) deniedSession).cameraReqs = 0
    ∧ armCount (run (mount demoBrowser) deniedSession).log = 1
    ∧ armCount (run (mount demoBrowser) deniedThenLateCallback).log = 2
    ∧ getUserMediaCount (run (mount demoBrowser) deniedThenLateCallback).log = 2
    ∧ (run (mount demoBrowser) deniedThenGranted).st.webcamActive = true
    ∧ (run (mount demoBrowser) deniedThenGranted).st.stream = some 0
    ∧ frameCount (run (mount demoBrowser) deniedThenGranted).log = 1
    ∧ photoPostCount (run (mount demoBrowser) deniedThenGranted).log = 1 := by
  decide

/-- C6: in every reachable world, a run of `takePhoto` that passes its entry guard
issues no request by itself; it draws the frame and leaves a `toBlob` callback exactly
when `videoWidth > 0`, `videoHeight > 0` and `readyState >= 3`, and otherwise stops the
tracks of its stream, sets `stream = null`, `webcamActive = false`,
`sendingPhoto = false` and leaves no callback. The callback issues the POST to
`/api/send-photo` exactly when the blob is non-null with `size > 0`; on a null or
0-byte blob it issues none, stops the tracks of its stream and sets the same three
values. Every request to `/api/send-photo` so far has its own drawn frame. -/
theorem C6_upload_only_for_good_frame_and_blob (b : Browser) (tr : List Event) (w : World)
    (hw : w = run (mount b) tr) (i : Nat) (c : Comp) :
    (∀ vw vh rs, w.photoTimers[i]? = some c → c.webcamActive = true → c.sendingPhoto = false →
        c.photoTaken = false → videoMounted w = true →
      photoPostCount (step w (.photoTimer i vw vh rs)).log = photoPostCount w.log
      ∧ (step w (.photoTimer i vw vh rs)).photoPosts = w.photoPosts
      ∧ ((vw > 0 ∧ vh > 0 ∧ rs ≥ 3) →
          (step w (.photoTimer i vw vh rs)).log = w.log ++ [Action.drawImage]
          ∧ (step w (.photoTimer i vw vh rs)).blobs = w.blobs ++ [c])
      ∧ (¬ (vw > 0 ∧ vh > 0 ∧ rs ≥ 3) →
          ∃ s, c.stream = some s
            ∧ (step w (.photoTimer i vw vh rs)).log = w.log ++ [Action.trackStop s]
            ∧ (step w (.photoTimer i vw vh rs)).blobs = w.blobs
            ∧ (step w (.photoTimer i vw vh rs)).st.stream = none
            ∧ (step w (.photoTimer i vw vh rs)).st.webcamActive = false
            ∧ (step w (.photoTimer i vw vh rs)).st.sendingPhoto = false))
    ∧ (∀ blob, w.blobs[i]? = some c →
        (∀ size, blob = some size → size > 0 →
          (step w (.blobReady i blob)).log = w.log ++ [Action.postPhoto size]
          ∧ (step w (.blobReady i blob)).photoPosts = w.photoPosts ++ [c])
        ∧ ((blob = none ∨ blob = some 0) →
          ∃ s, c.stream = some s
            ∧ (step w (.blobReady i blob)).log = w.log ++ [Action.trackStop s]
            ∧ photoPostCount (step w (.blobReady i blob)).log = photoPostCount w.log
            ∧ (step w (.blobReady i blob)).photoPosts = w.photoPosts
            ∧ (step w (.blobReady i blob)).st.stream = none
            ∧ (step w (.blobReady i blob)).st.webcamActive = false
            ∧ (step w (.blobReady i blob)).st.sendingPhoto = false))
    ∧ photoPostCount w.log + w.blobs.length ≤ frameCount w.log := by
  have hs : StreamHeld w := hw ▸ StreamHeld_run tr (mount b) (StreamHeld_mount b)
  have hf : FramesFirst w := hw ▸ FramesFirst_run tr (mount b) (FramesFirst_mount b)
  obtain ⟨_, _, s3, s4, _⟩ := hs
  refine ⟨?_, ?_, hf⟩
  · intro vw vh rs hc g1 g2 g3 g4
    obtain ⟨_, hsome⟩ := s3 c (List.getElem?_mem hc)
    obtain ⟨s, hcs⟩ := Option.isSome_iff_exists.1 hsome
    have g4b : videoMounted { w with photoTimers := w.photoTimers.eraseIdx i } = true := g4
    refine ⟨?_, ?_, ?_, ?_⟩
    · by_cases hd : vw > 0 ∧ vh > 0 ∧ rs ≥ 3 <;>
        simp [step, hc, takePhoto, stopWebcam, g1, g2, g3, g4b, hd, hcs, photoPostCount]
    · by_cases hd : vw > 0 ∧ vh > 0 ∧ rs ≥ 3 <;>
        simp [step, hc, takePhoto, stopWebcam, g1, g2, g3, g4b, hd, hcs]
    · intro hd
      simp [step, hc, takePhoto, g1, g2, g3, g4b, hd]
    · intro hd
      refine ⟨s, hcs, ?_⟩
      simp [step, hc, takePhoto, stopWebcam, g1, g2, g3, g4b, hd, hcs]
  · intro blob hc
    obtain ⟨_, hsome⟩ := s4 c (List.getElem?_mem hc)
    obtain ⟨s, hcs⟩ := Option.isSome_iff_exists.1 hsome
    refine ⟨?_, ?_⟩
    · rintro size rfl hpos
      simp [step, hc, takePhotoBlob, hpos]
    · rintro (rfl | rfl) <;> refine ⟨s, hcs, ?_⟩ <;>
        simp [step, hc, takePhotoBlob, stopWebcam, hcs, photoPostCount]

/-- C6 at a frame of width 0 and at an empty blob. -/
theorem C6_upload_only_for_good_frame_and_blob_witness :
    (run (mount demoBrowser) readySession).photoTimers[0]? = some activeRender
    ∧ videoMounted (run (mount demoBrowser) readySession) = true
    ∧ (step (run (mount demoBrowser) readySession) (.photoTimer 0 0 480 4)).st.webcamActive = false
    ∧ photoPostCount (step (run (mount demoBrowser) readySession) (.photoTimer 0 0 480 4)).log
        = photoPostCount (run (mount demoBrowser) readySession).log
    ∧ (run (mount demoBrowser) (readySession ++ [.photoTimer 0 640 480 4])).blobs[0]?
        = some activeRender
    ∧ photoPostCount (step (run (mount demoBrowser) (readySession ++ [.photoTimer 0 640 480 4]))
          (.blobReady 0 (some 0))).log
        = photoPostCount (run (mount demoBrowser) (readySession ++ [.photoTimer 0 640 480 4])).log := by
  have h1 := (C6_upload_only_for_good_frame_and_blob demoBrowser readySession _ rfl 0
    activeRender).1 0 480 4 (by decide) rfl rfl rfl (by decide)
  have h2 := ((C6_upload_only_for_good_frame_and_blob demoBrowser
    (readySession ++ [.photoTimer 0 640 480 4]) _ rfl 0 activeRender).2.1 (some 0)
    (by decide)).2 (Or.inr rfl)
  obtain ⟨s, _, _, h3, _⟩ := h2
  obtain ⟨s1, _, _, _, _, h4, _⟩ := h1.2.2.2 (by decide)
  exact ⟨by decide, by decide, h4, h1.1, by decide, h3⟩

/-- On the happy path with single events (one geolocation callback or none when the API
is absent, snapshot upload attempted, camera granted, one readiness event, a frame with
positive dimensions, a non-empty blob, `/api/send-photo` answers ok) the session ends with
`photoTaken = true`, `sendingPhoto = false`, `stream = null`, `webcamActive = false`;
the tracks of the one granted stream were stopped exactly once and no stream is live;
`getUserMedia`, the frame and both uploads happened exactly once. From that state no
event other than a further geolocation callback (the one request has been answered),
unmount included, adds any call or changes the state. Conversely, in every reachable
state `photoTaken` is true only if a photo upload answered ok. -/
theorem happyPath_terminal_of_single_events (b : Browser) (g : Event) (r : IpReply) (d : Reply)
    (rs vw vh rs2 n : Nat) (w : World)
    (hw : w = run (mount b) (happyPath g r d rs vw vh rs2 n))
    (hmd : b.mediaDevices = true) (hg : g.isGeo = true)
    (hrs : rs ≥ 3) (hvw : vw > 0) (hvh : vh > 0) (hrs2 : rs2 ≥ 3) (hn : n > 0) :
    w.st.photoTaken = true ∧ w.st.sendingPhoto = false ∧ w.st.stream = none
    ∧ w.st.webcamActive = false
    ∧ stopCount 0 w.log = 1 ∧ liveStreams w = []
    ∧ getUserMediaCount w.log = 1 ∧ frameCount w.log = 1
    ∧ photoPostCount w.log = 1 ∧ dataPostCount w.log = 1
    ∧ (∀ tr, (∀ e ∈ tr, e.isGeo = false) →
        (run w (tr ++ [.unmount])).log = w.log ∧ (run w tr).log = w.log ∧ (run w tr).st = w.st)
    ∧ (∀ (b0 : Browser) (tr0 : List Event), (run (mount b0) tr0).st.photoTaken = true →
        ∃ e ∈ tr0, e.isPhotoOk = true) := by
  obtain ⟨h1, h2, h3, position, ip, h4⟩ :=
    happyPath_end b g r d rs vw vh rs2 n hmd hg hrs hvw hvh hrs2 hn
  rw [← hw] at h1 h2 h3 h4
  have hstop : stopCount 0 w.log = 1 := by
    rw [h4]; cases b.geolocation <;> simp [stopCount]
  refine ⟨by simp [h1], by simp [h1], by simp [h1], by simp [h1], hstop, ?_, ?_, ?_, ?_, ?_, ?_, ?_⟩
  · simp [liveStreams, h3, List.range_succ, hstop]
  · rw [h4]; cases b.geolocation <;> simp [getUserMediaCount]
  · rw [h4]; cases b.geolocation <;> simp [frameCount]
  · rw [h4]; cases b.geolocation <;> simp [photoPostCount]
  · rw [h4]; cases b.geolocation <;> simp [dataPostCount]
  · intro tr htr
    have q := Quiet_run tr w h2 htr
    refine ⟨?_, q.2.1, q.2.2⟩
    have q2 := Quiet_run (tr ++ [.unmount]) w h2 (by
      intro e he
      rcases List.mem_append.1 he with h | h
      · exact htr e h
      · simp at h; subst h; rfl)
    exact q2.2.1
  · intro b0 tr0 hp
    rcases photoTaken_run tr0 (mount b0) hp with h | h
    · cases hb : b0.geolocation <;>
        simp [mount, mountEffect, cameraEffect, scheduleCond, Comp.init, sendLocationData, hb] at h
    · exact h

/-- C7 (the code at the failing input): a happy path in which `loadeddata` and `canplay`
both arrive before the re-render ends in the terminal state (`photoTaken = true`,
`sendingPhoto = false`, `stream = null`, `webcamActive = false`), but both events armed
`takePhoto`: two frames are drawn, two requests to `/api/send-photo` are issued and the
tracks of the one granted stream are stopped twice. And after the happy path with one
readiness event, a second geolocation callback issues a second request to
`/api/send-data`. -/
theorem C7_happy_path_not_terminal :
    (run (mount demoBrowser) happyPathTwoReady).st.photoTaken = true
    ∧ (run (mount demoBrowser) happyPathTwoReady).st.sendingPhoto = false
    ∧ (run (mount demoBrowser) happyPathTwoReady).st.stream = none
    ∧ (run (mount demoBrowser) happyPathTwoReady).st.webcamActive = false
    ∧ (run (mount demoBrowser) happyPathTwoReady).acquired = 1
    ∧ stopCount 0 (run (mount demoBrowser) happyPathTwoReady).log = 2
    ∧ frameCount (run (mount demoBrowser) happyPathTwoReady).log = 2
    ∧ photoPostCount (run (mount demoBrowser) happyPathTwoReady).log = 2
    ∧ dataPostCount (run (mount demoBrowser)
        (happyPath (.geoSuccess demoPosition) demoIpReply .ok 4 640 480 4 1000)).log = 1
    ∧ dataPostCount (run (mount demoBrowser) happyPathLateCallback).log = 2 := by
  decide

/-- C8: for every geolocation outcome (a success callback with any position, an error
callback with any code, or no geolocation API) and every outcome of the IP lookup and
of the snapshot upload, the location stage runs to its end without a rejection:
`sendLocationData` is started, exactly one POST to `/api/send-data` is issued, and
the function ends with `sendingLocation = false` and `locationSentOrAttempted = true`
and nothing pending, which satisfies the condition of the camera effect: the next
render arms the camera timer. -/
theorem C8_location_stage_completes (b : Browser) (g : Event) (r : IpReply) (d : Reply)
    (hg : g.isGeo = true) :
    (∃ position ip, (run (mount b) (locationStage b g r d)).log
        = (if b.geolocation then [Action.getCurrentPosition] else [])
          ++ [Action.fetchIp, Action.postData (buildSnapshot b position ip)])
    ∧ dataPostCount (run (mount b) (locationStage b g r d)).log = 1
    ∧ Action.unhandledRejection ∉ (run (mount b) (locationStage b g r d)).log
    ∧ (run (mount b) (locationStage b g r d)).st.sendingLocation = false
    ∧ (run (mount b) (locationStage b g r d)).st.locationSentOrAttempted = true
    ∧ (run (mount b) (locationStage b g r d)).ipLookups = []
    ∧ (run (mount b) (locationStage b g r d)).dataPosts = 0
    ∧ scheduleCond (run (mount b) (locationStage b g r d)).st = true
    ∧ (run (mount b) (locationStage b g r d ++ [.render])).timer
        = some (run (mount b) (locationStage b g r d)).st := by
  obtain ⟨v, hv⟩ := getIpAddress_ok r
  cases hb : b.geolocation <;> cases g <;> simp [Event.isGeo] at hg <;> cases d <;>
    simp [locationStage, run, step, mount, mountEffect, cameraEffect, scheduleCond, Comp.init, hb,
      handleLocationError, sendLocationData, sendLocationDataAfterIp, sendLocationDataAfterPost, hv,
      dataPostCount, render, cameraDeps]

/-- C8 at a geolocation error followed by two network errors. -/
theorem C8_location_stage_completes_witness :
    Event.isGeo (.geoError 1) = true
    ∧ dataPostCount (run (mount demoBrowser)
        (locationStage demoBrowser (.geoError 1) .networkError .networkError)).log = 1
    ∧ (run (mount demoBrowser)
        (locationStage demoBrowser (.geoError 1) .networkError .networkError)).st.locationSentOrAttempted
        = true := by
  have h := C8_location_stage_completes demoBrowser (.geoError 1) .networkError .networkError rfl
  exact ⟨rfl, h.2.1, h.2.2.2.2.1⟩

/-- C9: for every position passed to `sendLocationData` in a run that passes its latch,
the snapshot posted when the IP lookup of that run settles carries
`position.coords.latitude` when `position` and `position.coords` are objects and the
value is neither undefined nor null, and the string `Lat indisponível` in every other
case (position undefined or null, coords undefined or null, latitude undefined or
null); likewise for the longitude and `Lon indisponível`. A coordinate 0 stays 0, and a
number in the snapshot is always the number that the position carried. The same
snapshot is posted when the position arrives through the geolocation success callback.
`handleLocationError`, the geolocation error callback and the mount effect of a browser
without geolocation post a snapshot that carries both sentinels. -/
theorem C9_coordinates_or_sentinels (w : World) (c : Comp) (p : Position) (r : IpReply)
    (hc : c.locationSentOrAttempted = false) :
    ∃ snap,
      (step (sendLocationData c p w) (.ipReply w.ipLookups.length r)).log
        = w.log ++ [Action.fetchIp, Action.postData snap]
      ∧ (w.browser.geolocation = true →
          (run w [.geoSuccess p, .ipReply w.ipLookups.length r]).log
            = w.log ++ [Action.fetchIp, Action.postData snap])
      ∧ ((p = .undefined ∨ p = .null ∨ p = .obj .undefined ∨ p = .obj .null) →
          snap.latitude = .str "Lat indisponível" ∧ snap.longitude = .str "Lon indisponível")
      ∧ (∀ lat lon, p = .obj (.obj lat lon) →
          snap.latitude = (if lat = .undefined ∨ lat = .null then .str "Lat indisponível" else lat)
          ∧ snap.longitude
              = (if lon = .undefined ∨ lon = .null then .str "Lon indisponível" else lon))
      ∧ (∀ e lon, p = .obj (.obj (.num 0 e) lon) → snap.latitude = .num 0 e)
      ∧ (∀ e lat, p = .obj (.obj lat (.num 0 e)) → snap.longitude = .num 0 e)
      ∧ (∀ m e, snap.latitude = .num m e → ∃ lon, p = .obj (.obj (.num m e) lon))
      ∧ (∀ m e, snap.longitude = .num m e → ∃ lat, p = .obj (.obj lat (.num m e)))
      ∧ ∃ snapE,
          (step (handleLocationError c w) (.ipReply w.ipLookups.length r)).log
            = w.log ++ [Action.fetchIp, Action.postData snapE]
          ∧ (w.browser.geolocation = true → ∀ code,
              (run w [.geoError code, .ipReply w.ipLookups.length r]).log
                = w.log ++ [Action.fetchIp, Action.postData snapE])
          ∧ (w.browser.geolocation = false →
              (run (mount w.browser) [.ipReply 0 r]).log
                = [Action.fetchIp, Action.postData snapE])
          ∧ snapE.latitude = .str "Lat indisponível"
          ∧ snapE.longitude = .str "Lon indisponível" := by
  obtain ⟨v0, hv⟩ := getIpAddress_ok r
  have hstep := sendLocationData_posts w c p r v0 hv hc
  have hinit := sendLocationData_posts w Comp.init p r v0 hv rfl
  have hstepE := sendLocationData_posts w c (.obj .null) r v0 hv hc
  have hinitE := sendLocationData_posts w Comp.init (.obj .null) r v0 hv rfl
  refine ⟨buildSnapshot w.browser p v0, by rw [hstep], ?_, ?_, ?_, ?_, ?_, ?_, ?_, ?_⟩
  · intro hg
    have h1 : step w (.geoSuccess p) = sendLocationData Comp.init p w := by simp [step, hg]
    have h2 : run w [.geoSuccess p, .ipReply w.ipLookups.length r]
        = step (step w (.geoSuccess p)) (.ipReply w.ipLookups.length r) := rfl
    rw [h2, h1, hinit]
  · rintro (rfl | rfl | rfl | rfl) <;>
      simp [buildSnapshot, Position.optLatitude, Position.optLongitude, Position.optCoords,
        JsVal.coalesce, JsVal.nullish]
  · rintro lat lon rfl
    constructor
    · cases lat <;>
        simp [buildSnapshot, Position.optLatitude, Position.optCoords, JsVal.coalesce,
          JsVal.nullish]
    · cases lon <;>
        simp [buildSnapshot, Position.optLongitude, Position.optCoords, JsVal.coalesce,
          JsVal.nullish]
  · rintro e lon rfl
    simp [buildSnapshot, Position.optLatitude, Position.optCoords, JsVal.coalesce, JsVal.nullish]
  · rintro e lat rfl
    simp [buildSnapshot, Position.optLongitude, Position.optCoords, JsVal.coalesce, JsVal.nullish]
  · intro m e h
    rcases p with _ | _ | (_ | _ | ⟨lat, lon⟩) <;>
      simp [buildSnapshot, Position.optLatitude, Position.optCoords, JsVal.coalesce,
        JsVal.nullish] at h
    cases lat <;> simp [JsVal.nullish] at h
    obtain ⟨rfl, rfl⟩ := h
    exact ⟨lon, rfl⟩
  · intro m e h
    rcases p with _ | _ | (_ | _ | ⟨lat, lon⟩) <;>
      simp [buildSnapshot, Position.optLongitude, Position.optCoords, JsVal.coalesce,
        JsVal.nullish] at h
    cases lon <;> simp [JsVal.nullish] at h
    obtain ⟨rfl, rfl⟩ := h
    exact ⟨lat, rfl⟩
  · refine ⟨buildSnapshot w.browser (.obj .null) v0, ?_, ?_, ?_, ?_, ?_⟩
    · have : handleLocationError c w = sendLocationData c (.obj .null) w := by
        simp [handleLocationError, hc]
      rw [this, hstepE]
    · intro hg code
      have h1 : step w (.geoError code) = sendLocationData Comp.init (.obj .null) w := by
        simp [step, hg, handleLocationError, Comp.init]
      have h2 : run w [.geoError code, .ipReply w.ipLookups.length r]
          = step (step w (.geoError code)) (.ipReply w.ipLookups.length r) := rfl
      rw [h2, h1, hinitE]
    · intro hg
      simp [run, step, mount, mountEffect, cameraEffect, scheduleCond, Comp.init, hg,
        sendLocationData, sendLocationDataAfterIp, hv]
    · simp [buildSnapshot, Position.optLatitude, Position.optCoords, JsVal.coalesce, JsVal.nullish]
    · simp [buildSnapshot, Position.optLongitude, Position.optCoords, JsVal.coalesce, JsVal.nullish]

/-- C9 at the success callback with the position (-23.5, -46.6). -/
theorem C9_coordinates_or_sentinels_witness :
    ∃ snap,
      (run (mount demoBrowser) [.geoSuccess demoPosition, .ipReply 0 demoIpReply]).log
        = [Action.getCurrentPosition, Action.fetchIp, Action.postData snap]
      ∧ snap.latitude = .num (-235) (-1) ∧ snap.longitude = .num (-466) (-1) := by
  obtain ⟨snap, _, h2, _, h4, _⟩ :=
    C9_coordinates_or_sentinels (mount demoBrowser) Comp.init demoPosition demoIpReply rfl
  have h := h4 (.num (-235) (-1)) (.num (-466) (-1)) rfl
  exact ⟨snap, h2 rfl, by simpa using h.1, by simpa using h.2⟩

/-- C10 (counterexample): the IP service answers 200 with the JSON document `{}`.
`getIpAddress` resolves to `undefined`, which is not a string, and the posted JSON
document has no `ip` member. -/
theorem C10_reply_without_ip_gives_undefined :
    getIpAddress (.response true 200 (some (.obj []))) = .ok .undefined
    ∧ (∀ s, getIpAddress (.response true 200 (some (.obj []))) ≠ .ok (.str s))
    ∧ (∃ snap, (run (mount demoBrowser)
          [.geoSuccess demoPosition, .ipReply 0 (.response true 200 (some (.obj [])))]).log
        = [.getCurrentPosition, .fetchIp, .postData snap]
        ∧ snap.ip = .undefined ∧ "ip" ∉ snap.jsonKeys) := by
  refine ⟨rfl, ?_, ⟨_, rfl, rfl, by decide⟩⟩
  intro s h
  simp [getIpAddress, getIpAddressTry, Json.member] at h

/-- C10 (amended): `getIpAddress` never rejects. It resolves to
`IP não disponível (API)` on a response that is not ok, to
`IP não disponível (Erro Rede)` on a network error, on a body that is not decodable
JSON and on a body that decodes to `null`, and otherwise to the value of the member
`ip` of the decoded reply as it is: that value when the reply is an object with the
member, `undefined` when the reply is an object without it or is not an object. The
snapshot carries the resolved value as `ip`, and the posted JSON document has an `ip`
member exactly when that value is not `undefined`. -/
theorem C10_getIpAddress_total (r : IpReply) (b : Browser) (p : Position) :
    ∃ v, getIpAddress r = .ok v
      ∧ (r = .networkError → v = .str "IP não disponível (Erro Rede)")
      ∧ (∀ status body, r = .response false status body → v = .str "IP não disponível (API)")
      ∧ (∀ status, r = .response true status none → v = .str "IP não disponível (Erro Rede)")
      ∧ (∀ status, r = .response true status (some .null) →
          v = .str "IP não disponível (Erro Rede)")
      ∧ (∀ status fields x, r = .response true status (some (.obj fields)) →
          fields.lookup "ip" = some x → v = x)
      ∧ (∀ status fields, r = .response true status (some (.obj fields)) →
          fields.lookup "ip" = none → v = .undefined)
      ∧ (∀ status data, r = .response true status (some data) → data ≠ .null →
          (∀ fields, data ≠ .obj fields) → v = .undefined)
      ∧ (buildSnapshot b p v).ip = v
      ∧ ("ip" ∈ (buildSnapshot b p v).jsonKeys ↔ v ≠ .undefined) := by
  obtain ⟨v, hv⟩ := getIpAddress_ok r
  refine ⟨v, hv, ?_, ?_, ?_, ?_, ?_, ?_, ?_, rfl, ?_⟩
  · rintro rfl; simpa [getIpAddress, getIpAddressTry] using hv.symm
  · rintro status body rfl; simpa [getIpAddress, getIpAddressTry] using hv.symm
  · rintro status rfl; simpa [getIpAddress, getIpAddressTry] using hv.symm
  · rintro status rfl; simpa [getIpAddress, getIpAddressTry, Json.member] using hv.symm
  · rintro status fields x rfl hx
    simpa [getIpAddress, getIpAddressTry, Json.member, hx] using hv.symm
  · rintro status fields rfl hx
    simpa [getIpAddress, getIpAddressTry, Json.member, hx] using hv.symm
  · rintro status data rfl h1 h2
    cases data <;> simp_all [getIpAddress, getIpAddressTry, Json.member]
  · simp only [Snapshot.jsonKeys, buildSnapshot]
    generalize p.optLatitude.coalesce _ = a1
    generalize p.optLongitude.coalesce _ = a2
    generalize b.userAgent.orElse _ = a3
    generalize JsVal.coalesce _ _ = a4
    generalize JsVal.coalesce _ _ = a5
    generalize b.language.orElse _ = a6
    generalize (if (b.cookie != "") = true then _ else _) = a7
    simp [List.mem_map, List.mem_filter, List.mem_cons, Prod.exists]

/-- C10 (amended) at a reply with an address and at a network error. -/
theorem C10_getIpAddress_total_witness :
    getIpAddress demoIpReply = .ok (.str "203.0.113.7")
    ∧ getIpAddress .networkError = .ok (.str "IP não disponível (Erro Rede)") := by
  obtain ⟨v, hv, _, _, _, _, h5, _⟩ := C10_getIpAddress_total demoIpReply demoBrowser demoPosition
  obtain ⟨u, hu, h1, _⟩ := C10_getIpAddress_total .networkError demoBrowser demoPosition
  have e1 : v = .str "203.0.113.7" := h5 200 [("ip", .str "203.0.113.7")] _ rfl rfl
  have e2 := h1 rfl
  rw [e1] at hv
  rw [e2] at hu
  exact ⟨hv, hu⟩

/-- C11: when `TELEGRAM_BOT_TOKEN` or `TELEGRAM_CHAT_ID` is unset or empty, both
handlers answer 500 with `success: false` whatever the request and the messaging API
would give; the data route makes no call at all, the photo route only reads the
headers of the request for its log: neither reads the body, neither calls the
messaging API. -/
theorem C11_missing_credentials_give_500 (env : ServerEnv)
    (h : env.token = none ∨ env.token = some "" ∨ env.chatId = none ∨ env.chatId = some "") :
    (∀ request relayOk,
      sendDataPOST env request relayOk
        = { calls := [], response := some { status := 500, success := false } })
    ∧ (∀ request downstream,
      sendPhotoPOST env request downstream
        = { calls := [.readHeaders], response := some { status := 500, success := false } }) := by
  have hunset : (!envSet env.token || !envSet env.chatId) = true := by
    rcases h with h | h | h | h <;> simp [h, envSet]
  constructor
  · intro request relayOk
    simp [sendDataPOST, hunset]
  · intro request downstream
    simp [sendPhotoPOST, hunset]

/-- C11 at a server without chat id and at a server with an empty token. -/
theorem C11_missing_credentials_give_500_witness :
    sendDataPOST { token := some "123456:token", chatId := none } (some (.obj [])) true
      = { calls := [], response := some { status := 500, success := false } }
    ∧ sendPhotoPOST { token := some "", chatId := some "42" }
        (.parsed (.file 1000 "webcam_auto.jpg" "image/jpeg")) (.replies (.obj [("ok", .bool true)]))
      = { calls := [.readHeaders], response := some { status := 500, success := false } } :=
  ⟨(C11_missing_credentials_give_500 { token := some "123456:token", chatId := none }
      (Or.inr (Or.inr (Or.inl rfl)))).1 _ _,
   (C11_missing_credentials_give_500 { token := some "", chatId := some "42" }
      (Or.inr (Or.inl rfl))).2 _ _⟩

/-- C12 (counterexample): the body is the JSON array `[]`. It is truthy and its
`typeof` is `object`, so it passes the check of line 33; the handler relays a message
in which every field is `N/A` and answers 200. -/
theorem C12_array_body_is_relayed :
    sendDataPOST demoEnv (some .arr) true
      = { calls := [.readJson, .sendMessage "42"
            (formatMessage "N/A" "N/A" "N/A" "N/A" "N/A" "N/A" "N/A" "N/A" "N/A" "N/A")]
          response := some { status := 200, success := true } } := by
  rfl

/-- C12 (amended): with both credentials set, a body that is not valid JSON and a body
whose JSON value is `null`, a boolean, a number or a string get status 400 with
`success: false`, and the handler makes no call to the messaging API. An array is not
rejected: it is relayed as a message in which every field is `N/A`, and the status is
200 or 500 as for an object. -/
theorem C12_non_object_bodies (env : ServerEnv) (relayOk : Bool)
    (ht : envSet env.token = true) (hc : envSet env.chatId = true) :
    sendDataPOST env none relayOk
      = { calls := [.readJson], response := some { status := 400, success := false } }
    ∧ sendDataPOST env (some .null) relayOk
      = { calls := [.readJson], response := some { status := 400, success := false } }
    ∧ (∀ b, sendDataPOST env (some (.bool b)) relayOk
      = { calls := [.readJson], response := some { status := 400, success := false } })
    ∧ (∀ t, sendDataPOST env (some (.num t)) relayOk
      = { calls := [.readJson], response := some { status := 400, success := false } })
    ∧ (∀ s, sendDataPOST env (some (.str s)) relayOk
      = { calls := [.readJson], response := some { status := 400, success := false } })
    ∧ sendDataPOST env (some .arr) relayOk
      = { calls := [.readJson, .sendMessage (envText env.chatId)
            (formatMessage "N/A" "N/A" "N/A" "N/A" "N/A" "N/A" "N/A" "N/A" "N/A" "N/A")]
          response := if relayOk then some { status := 200, success := true }
            else some { status := 500, success := false } } := by
  refine ⟨?_, ?_, ?_, ?_, ?_, ?_⟩
  · simp [sendDataPOST, ht, hc]
  · simp [sendDataPOST, ht, hc, JDoc.truthy]
  · intro b
    cases b <;> simp [sendDataPOST, ht, hc, JDoc.truthy, JDoc.typeofObject]
  · intro t
    simp [sendDataPOST, ht, hc, JDoc.typeofObject]
  · intro s
    simp [sendDataPOST, ht, hc, JDoc.typeofObject]
  · have hb : buildMessage .arr
        = .ok (formatMessage "N/A" "N/A" "N/A" "N/A" "N/A" "N/A" "N/A" "N/A" "N/A" "N/A") := rfl
    simp [sendDataPOST, ht, hc, JDoc.truthy, JDoc.typeofObject, hb]

/-- C12 (amended) at the configured server and a failing relay. -/
theorem C12_non_object_bodies_witness :
    envSet demoEnv.token = true ∧ envSet demoEnv.chatId = true
    ∧ sendDataPOST demoEnv none false
      = { calls := [.readJson], response := some { status := 400, success := false } }
    ∧ sendDataPOST demoEnv (some (.num "7")) false
      = { calls := [.readJson], response := some { status := 400, success := false } } :=
  ⟨rfl, rfl, (C12_non_object_bodies demoEnv false rfl rfl).1,
    (C12_non_object_bodies demoEnv false rfl rfl).2.2.2.1 "7"⟩

/-- C13 (counterexample): a body whose `connection` supplies `downlink: 0` is relayed
with `Downlink: N/A`, not with the supplied value; and a body whose `connection` is
`null` makes the handler raise at `connection.type`, before any relay. -/
theorem C13_falsy_member_and_null_connection :
    sendDataPOST demoEnv
        (some (.obj [("connection", .obj [("type", .str "wifi"), ("downlink", .num "0")])])) true
      = { calls := [.readJson, .sendMessage "42"
            (formatMessage "N/A" "N/A" "N/A" "N/A" "N/A" "N/A" "N/A" "N/A" "wifi" "N/A")]
          response := some { status := 200, success := true } }
    ∧ sendDataPOST demoEnv (some (.obj [("connection", .null)])) true
      = { calls := [.readJson], response := none } := by
  constructor <;> rfl

/-- C13 (amended): with both credentials set, for every JSON-object body whose
`connection` is not `null` and whose supplied values convert to text, the handler does
not raise: it relays one message in which each of latitude, longitude, ip, userAgent,
screenWidth, screenHeight, language and cookies appears as the text of its value when
supplied (a supplied `null` as `null`) and as `N/A` when missing, and in which
`connection.type` and `connection.downlink` appear as the text of their value when
`connection` is an object that supplies a truthy value and as `N/A` otherwise; the
status is 200 with `success: true` when the relay succeeds and 500 with
`success: false` when it fails. -/
theorem C13_object_body_is_relayed (env : ServerEnv) (fields : List (String × JValue))
    (relayOk : Bool)
    (ht : envSet env.token = true) (hc : envSet env.chatId = true)
    (hnull : fields.lookup "connection" ≠ some .null)
    (htext : ∀ key ∈ textKeys, ∀ v, fields.lookup key = some v → ∃ t, v.text = .ok t)
    (hleaf : ∀ members key l, fields.lookup "connection" = some (.obj members) →
      members.lookup key = some l → l.truthy = true → ∃ t, l.text = .ok t) :
    ∃ latitude longitude ip userAgent screenWidth screenHeight language cookies
        connectionType connectionDownlink,
      sendDataPOST env (some (.obj fields)) relayOk
        = { calls := [.readJson, .sendMessage (envText env.chatId)
              (formatMessage latitude longitude ip userAgent screenWidth screenHeight language
                cookies connectionType connectionDownlink)]
            response := if relayOk then some { status := 200, success := true }
              else some { status := 500, success := false } }
      ∧ FieldShown fields "latitude" latitude ∧ FieldShown fields "longitude" longitude
      ∧ FieldShown fields "ip" ip ∧ FieldShown fields "userAgent" userAgent
      ∧ FieldShown fields "screenWidth" screenWidth
      ∧ FieldShown fields "screenHeight" screenHeight
      ∧ FieldShown fields "language" language ∧ FieldShown fields "cookies" cookies
      ∧ ConnectionShown fields "type" connectionType
      ∧ ConnectionShown fields "downlink" connectionDownlink := by
  obtain ⟨t1, e1, s1⟩ := textOrDefault_shown fields "latitude" (htext _ (by simp [textKeys]))
  obtain ⟨t2, e2, s2⟩ := textOrDefault_shown fields "longitude" (htext _ (by simp [textKeys]))
  obtain ⟨t3, e3, s3⟩ := textOrDefault_shown fields "ip" (htext _ (by simp [textKeys]))
  obtain ⟨t4, e4, s4⟩ := textOrDefault_shown fields "userAgent" (htext _ (by simp [textKeys]))
  obtain ⟨t5, e5, s5⟩ := textOrDefault_shown fields "screenWidth" (htext _ (by simp [textKeys]))
  obtain ⟨t6, e6, s6⟩ := textOrDefault_shown fields "screenHeight" (htext _ (by simp [textKeys]))
  obtain ⟨t7, e7, s7⟩ := textOrDefault_shown fields "language" (htext _ (by simp [textKeys]))
  obtain ⟨t8, e8, s8⟩ := textOrDefault_shown fields "cookies" (htext _ (by simp [textKeys]))
  obtain ⟨m9, t9, c9, e9, s9⟩ := connection_shown fields "type" hnull
    (fun members l h1 h2 h3 => hleaf members "type" l h1 h2 h3)
  obtain ⟨m10, t10, c10, e10, s10⟩ := connection_shown fields "downlink" hnull
    (fun members l h1 h2 h3 => hleaf members "downlink" l h1 h2 h3)
  refine ⟨t1, t2, t3, t4, t5, t6, t7, t8, t9, t10, ?_, s1, s2, s3, s4, s5, s6, s7, s8, s9, s10⟩
  have hb : buildMessage (.obj fields)
      = .ok (formatMessage t1 t2 t3 t4 t5 t6 t7 t8 t9 t10) := by
    simp only [buildMessage, c9, c10, e1, e2, e3, e4, e5, e6, e7, e8]
    simp only [bind, Except.bind, e9, e10, pure, Except.pure]
  simp [sendDataPOST, ht, hc, JDoc.truthy, JDoc.typeofObject, hb]

/-- C13 (amended) at a body with a latitude, a `null` ip and the string the client
sends when it has no connection API. -/
theorem C13_object_body_is_relayed_witness :
    envSet demoEnv.token = true ∧ envSet demoEnv.chatId = true
    ∧ (sendDataPOST demoEnv
        (some (.obj [("latitude", .num "-23.5"), ("ip", .null),
          ("connection", .str "API Conexão Indisponível")])) true).response
      = some { status := 200, success := true } := by
  obtain ⟨_, _, _, _, _, _, _, _, _, _, h, _⟩ := C13_object_body_is_relayed demoEnv
    [("latitude", .num "-23.5"), ("ip", .null), ("connection", .str "API Conexão Indisponível")]
    true rfl rfl (by decide)
    (by
      intro key hk v hv
      cases v with
      | obj members =>
        simp only [textKeys, List.mem_cons, List.mem_singleton, List.not_mem_nil, or_false] at hk
        rcases hk with rfl | rfl | rfl | rfl | rfl | rfl | rfl | rfl <;> simp [List.lookup] at hv
      | arr j =>
        simp only [textKeys, List.mem_cons, List.mem_singleton, List.not_mem_nil, or_false] at hk
        rcases hk with rfl | rfl | rfl | rfl | rfl | rfl | rfl | rfl <;> simp [List.lookup] at hv
      | null => exact ⟨_, rfl⟩
      | bool b => exact ⟨_, rfl⟩
      | num t => exact ⟨_, rfl⟩
      | str s => exact ⟨_, rfl⟩)
    (by
      intro members key l h1
      simp [List.lookup] at h1)
  exact ⟨rfl, rfl, by rw [h]; rfl⟩

/-- C14 (counterexample): `request.formData()` rejects with a `TypeError` whose message
is `Failed to parse body as FormData.`, or with an error that is not a `TypeError`: the
body could not be parsed, and the handler answers 500, not 400. And a reply whose `ok`
is `1` is answered with 200. -/
theorem C14_other_parse_errors_give_500 :
    sendPhotoPOST demoEnv
        (.rejects { isTypeError := true, message := "Failed to parse body as FormData." }) .rejects
      = { calls := [.readHeaders, .readFormData],
          response := some { status := 500, success := false } }
    ∧ sendPhotoPOST demoEnv
        (.rejects { isTypeError := false, message := "Could not parse content as FormData." })
        .rejects
      = { calls := [.readHeaders, .readFormData],
          response := some { status := 500, success := false } }
    ∧ (sendPhotoPOST demoEnv (.parsed (.file 1000 "webcam_auto.jpg" "image/jpeg"))
        (.replies (.obj [("ok", .num "1")]))).response
      = some { status := 200, success := true } := by
  decide

/-- C14 (amended): with both credentials set the handler always returns a response.
The status is 400 when `request.formData()` rejects with a `TypeError` whose message
contains `Could not parse content as FormData` (500 for any other rejection), and 400
when the field `photo` is missing, is a string or has size 0; in all these cases the
messaging API is not called. Otherwise the photo is sent once, and the answer is 200
with `success: true` exactly when the reply is an object with a truthy `ok`, and 500
with `success: false` when the call fails, when `ok` is falsy or missing and when the
reply is not an object. -/
theorem C14_photo_route_statuses (env : ServerEnv) (request : FormRequest)
    (downstream : Downstream) (ht : envSet env.token = true) (hc : envSet env.chatId = true) :
    (∃ r, (sendPhotoPOST env request downstream).response = some r)
    ∧ (∀ e, request = .rejects e →
        sendPhotoPOST env request downstream
          = { calls := [.readHeaders, .readFormData],
              response := some { status := if isFormDataError e then 400 else 500,
                                 success := false } })
    ∧ ((request = .parsed .missing ∨ (∃ s, request = .parsed (.text s))
          ∨ (∃ name type, request = .parsed (.file 0 name type))) →
        sendPhotoPOST env request downstream
          = { calls := [.readHeaders, .readFormData],
              response := some { status := 400, success := false } })
    ∧ (∀ size name type, request = .parsed (.file size name type) → 0 < size →
        (sendPhotoPOST env request downstream).calls
          = [.readHeaders, .readFormData,
              .sendPhoto (envText env.chatId) size
                (if name = "" then "webcam_auto.jpg" else name)
                (if type = "" then "image/jpeg" else type)]
        ∧ (downstream = .rejects →
            (sendPhotoPOST env request downstream).response
              = some { status := 500, success := false })
        ∧ (∀ data, downstream = .replies data →
            ((sendPhotoPOST env request downstream).response
                = some { status := 200, success := true }
              ↔ ∃ fields v, data = .obj fields ∧ fields.lookup "ok" = some v ∧ v.truthy = true)
            ∧ ((sendPhotoPOST env request downstream).response
                = some { status := 200, success := true }
              ∨ (sendPhotoPOST env request downstream).response
                = some { status := 500, success := false }))) := by
  refine ⟨?_, ?_, ?_, ?_⟩
  · rcases request with e | (_ | s | ⟨size, name, type⟩)
    · exact Option.isSome_iff_exists.1 (by simp [sendPhotoPOST, ht, hc])
    · exact Option.isSome_iff_exists.1 (by simp [sendPhotoPOST, ht, hc])
    · exact Option.isSome_iff_exists.1 (by simp [sendPhotoPOST, ht, hc])
    · by_cases hz : size = 0
      · exact Option.isSome_iff_exists.1 (by simp [sendPhotoPOST, ht, hc, hz])
      · rcases downstream with _ | data
        · exact Option.isSome_iff_exists.1 (by simp [sendPhotoPOST, ht, hc, hz])
        · rcases hr : replyOk data with e | (_ | _)
          · exact Option.isSome_iff_exists.1 (by simp [sendPhotoPOST, ht, hc, hz, hr])
          · exact Option.isSome_iff_exists.1 (by simp [sendPhotoPOST, ht, hc, hz, hr])
          · exact Option.isSome_iff_exists.1 (by simp [sendPhotoPOST, ht, hc, hz, hr])
  · rintro e rfl
    simp [sendPhotoPOST, ht, hc, sendPhotoCatch]
    split_ifs <;> rfl
  · rintro (rfl | ⟨s, rfl⟩ | ⟨name, type, rfl⟩) <;> simp [sendPhotoPOST, ht, hc]
  · rintro size name type rfl hpos
    have hne : size ≠ 0 := by omega
    refine ⟨by simp [sendPhotoPOST, ht, hc, hne], ?_, ?_⟩
    · rintro rfl
      simp [sendPhotoPOST, ht, hc, hne, sendPhotoCatch, isFormDataError]
    · rintro data rfl
      have hresp : (sendPhotoPOST env (.parsed (.file size name type)) (.replies data)).response
          = match replyOk data with
            | .error e => some (sendPhotoCatch e)
            | .ok true => some { status := 200, success := true }
            | .ok false => some { status := 500, success := false } := by
        simp [sendPhotoPOST, ht, hc, hne]
      rw [hresp]
      cases data with
      | null => simp [replyOk, sendPhotoCatch, nullRead_not_formData]
      | bool b => simp [replyOk]
      | num t => simp [replyOk]
      | str s => simp [replyOk]
      | arr => simp [replyOk]
      | obj fields =>
        rcases hl : fields.lookup "ok" with _ | v
        · simp [replyOk, hl]
        · cases hv : v.truthy <;> simp [replyOk, hl, hv]

/-- C14 (amended) at a photo of 1000 bytes that the messaging API accepts, and at a
form without the field `photo`. -/
theorem C14_photo_route_statuses_witness :
    envSet demoEnv.token = true ∧ envSet demoEnv.chatId = true
    ∧ (sendPhotoPOST demoEnv (.parsed (.file 1000 "" "image/jpeg"))
        (.replies (.obj [("ok", .bool true)]))).response
      = some { status := 200, success := true }
    ∧ sendPhotoPOST demoEnv (.parsed .missing) .rejects
      = { calls := [.readHeaders, .readFormData],
          response := some { status := 400, success := false } } :=
  ⟨rfl, rfl,
    ((((C14_photo_route_statuses demoEnv (.parsed (.file 1000 "" "image/jpeg"))
      (.replies (.obj [("ok", .bool true)])) rfl rfl).2.2.2 1000 "" "image/jpeg" rfl
      (by decide)).2.2 _ rfl).1).2 ⟨_, _, rfl, rfl, rfl⟩,
    (C14_photo_route_statuses demoEnv (.parsed .missing) .rejects rfl rfl).2.2.1 (Or.inl rfl)⟩

/-- C15: in every reachable execution the stages occur in order. A pending camera
timer belongs to a render with `locationSentOrAttempted` true and `sendingLocation`,
`webcamActive` and `photoTaken` false, and the timer is armed only by a render whose
state satisfies that condition; `getUserMedia` is called only when that timer fires,
after the latch was set, a request to `/api/send-data` was issued and the timer was
armed. `takePhoto` is scheduled only by a readiness event with `readyState >= 3` on a
render with the webcam active and a granted stream; a frame is drawn only by a run of
`takePhoto` with positive dimensions and `readyState >= 3`, after `takePhoto` was
scheduled and a stream was granted. The tracks of a stream are stopped only by a step
of a run of `takePhoto` (its timer, its `toBlob` callback or the reply to its upload),
after `takePhoto` was scheduled and a stream was granted. -/
theorem C15_stages_in_order (b : Browser) (tr : List Event) (w : World)
    (hw : w = run (mount b) tr) :
    (∀ c, w.timer = some c →
      c.locationSentOrAttempted = true ∧ c.sendingLocation = false
      ∧ c.webcamActive = false ∧ c.photoTaken = false)
    ∧ (∀ e, armCount (step w e).log ≠ armCount w.log →
        e = .render ∧ (step w e).timer = some (step w e).rendered
        ∧ scheduleCond (step w e).rendered = true)
    ∧ (∀ e, getUserMediaCount (step w e).log ≠ getUserMediaCount w.log →
        e = .cameraTimer ∧ w.st.locationSentOrAttempted = true
        ∧ 0 < dataPostCount w.log ∧ 0 < armCount w.log)
    ∧ (0 < getUserMediaCount w.log →
        w.st.locationSentOrAttempted = true ∧ 0 < dataPostCount w.log ∧ 0 < armCount w.log)
    ∧ (∀ e, photoTimerCount (step w e).log ≠ photoTimerCount w.log →
        ∃ rs, e = .videoReady rs ∧ 3 ≤ rs ∧ w.rendered.webcamActive = true ∧ 0 < w.acquired)
    ∧ (∀ e, frameCount (step w e).log ≠ frameCount w.log →
        (∃ i vw vh rs, e = .photoTimer i vw vh rs ∧ 0 < vw ∧ 0 < vh ∧ 3 ≤ rs)
        ∧ 0 < photoTimerCount w.log ∧ 0 < w.acquired)
    ∧ (0 < frameCount w.log →
        0 < photoTimerCount w.log ∧ 0 < w.acquired ∧ 0 < getUserMediaCount w.log)
    ∧ (∀ e, stopTotal (step w e).log ≠ stopTotal w.log →
        e.isCapture = true ∧ 0 < photoTimerCount w.log ∧ 0 < w.acquired) := by
  have hl : LocationFirst w := hw ▸ LocationFirst_run tr (mount b) (LocationFirst_mount b)
  have hc : CameraFirst w := hw ▸ CameraFirst_run tr (mount b) (CameraFirst_mount b)
  obtain ⟨l1, l2, l3, l4, l5, l6, l7⟩ := hl
  obtain ⟨c1, c2, c3⟩ := hc
  refine ⟨?_, ?_, ?_, ?_, ?_, ?_, ?_, ?_⟩
  · intro c hcs
    have := l1 c (by simp [hcs])
    simpa [scheduleCond, and_assoc, and_comm, and_left_comm] using this
  · intro e he
    rcases armCount_step w e with h | h
    · exact absurd h he
    · exact h
  · intro e he
    rcases getUserMediaCount_step w e with h | ⟨h1, c, h2, _⟩
    · exact absurd h he
    · have ht := l2 (by simp [h2])
      exact ⟨h1, ht.2, l3 ht.2, ht.1⟩
  · intro hg
    have := l6 hg
    exact ⟨this.2, l3 this.2, this.1⟩
  · intro e he
    rcases photoTimerCount_step w e with h | ⟨rs, h1, h2, h3, _⟩
    · exact absurd h he
    · exact ⟨rs, h1, h2, h3, c2 h3⟩
  · intro e he
    rcases frameCount_step w e with h | ⟨i, vw, vh, rs, h1, h2, h3, h4, h5⟩
    · exact absurd h he
    · exact ⟨⟨i, vw, vh, rs, h1, h3, h4, h5⟩, c3 (by omega)⟩
  · intro hf
    have := c3 (by omega)
    exact ⟨this.1, this.2, l7 this.2⟩
  · intro e he
    rcases stopTotal_step w e ⟨c1, c2, c3⟩ with h | h
    · exact absurd h he
    · exact h

/-- C15 at the session that reaches the pending photo upload. -/
theorem C15_stages_in_order_witness :
    0 < frameCount (run (mount demoBrowser) toPhotoUpload).log
    ∧ 0 < photoTimerCount (run (mount demoBrowser) toPhotoUpload).log
    ∧ 0 < getUserMediaCount (run (mount demoBrowser) toPhotoUpload).log
    ∧ 0 < dataPostCount (run (mount demoBrowser) toPhotoUpload).log
    ∧ (run (mount demoBrowser) toPhotoUpload).st.locationSentOrAttempted = true := by
  have h := C15_stages_in_order demoBrowser toPhotoUpload _ rfl
  have h7 := h.2.2.2.2.2.2.1 (by decide)
  have h4 := h.2.2.2.1 h7.2.2
  exact ⟨by decide, h7.1, h7.2.2, h4.2.1, h4.1⟩

end Comprovante
